import Mathlib

/-!
# ServerBoard dashboard client: verification of `static/script.js`

A shallow embedding of the stateful core of the dashboard script: the idle
alert evaluation (`checkGpuAlerts`), the rolling chart buffers
(`updateCharts`) and the WebSocket session handlers installed by `connect`.

Conventions of the embedding.

* JavaScript numbers that carry measurements or settings (percentages,
  thresholds, durations, byte rates) are rationals; `Date.now()` is a natural
  number of milliseconds.
* JavaScript objects used as maps (`gpuMonitors`, `pendingAlerts`, `gpuData`)
  are functions from the device id to an optional value; `none` is an absent
  key.
* Every handler runs to completion; the value of `Date.now()` read during one
  handler run is a parameter of that run.
* An exception that nothing catches ends the handler run; what was written
  before it stays written.
-/

namespace ServerBoard

/-! ## Snapshot payload -/

/-- One entry of `data.gpus`. -/
structure Gpu where
  id : Nat
  name : String
  gpu_util : ℚ
  mem_percent : ℚ

/-- The object `data.system.memory`. -/
structure Memory where
  percent : ℚ

/-- The object `data.system.network`; a missing field reads as `undefined`. -/
structure Network where
  speed_sent_bytes : Option ℚ
  speed_recv_bytes : Option ℚ

/-- The object `data.system`. -/
structure SystemStats where
  cpu : ℚ
  memory : Memory
  network : Network

/-- A parsed frame; `gpus` may be absent. -/
structure Snapshot where
  system : SystemStats
  gpus : Option (List Gpu)

/-! ## Alert evaluation -/

/-- An entry of `gpuMonitors`. -/
structure MonitorConfig where
  enabled : Bool
  threshold : ℚ
  duration : ℚ

/-- What the page offers under the name `Notification`: nothing (reading
`Notification.permission` throws a `ReferenceError`), a permission that is not
`'granted'`, a granted permission with a working constructor, or a granted
permission with a constructor that throws a `TypeError`. -/
inductive NotificationApi where
  | missing
  | denied
  | granted
  | illegal
  deriving DecidableEq

/-- Lines 110-113 throw: `Notification` is not defined, or `new Notification`
throws. -/
def NotificationApi.throws : NotificationApi → Bool
  | NotificationApi.missing => true
  | NotificationApi.illegal => true
  | _ => false

/-- Lines 110-113 show a notification. -/
def NotificationApi.shows : NotificationApi → Bool
  | NotificationApi.granted => true
  | _ => false

/-- One run of the "Trigger Alert" block, recorded when `playBeep()` has run;
`notified` says whether the notification was shown (its body has the id, the
name, the memory percentage and `Math.floor(elapsed)`). -/
structure AlertEpisode where
  id : Nat
  name : String
  mem_percent : ℚ
  seconds : ℤ
  notified : Bool

/-- The mutable state read and written by `checkGpuAlerts`. -/
structure AlertState where
  gpuMonitors : Nat → Option MonitorConfig
  pendingAlerts : Nat → Option Nat
  storedMonitors : Nat → Option MonitorConfig
  episodes : List AlertEpisode

/-- The state a piece of code leaves, and whether it ended by an exception
that nothing caught. -/
structure Outcome where
  state : AlertState
  thrown : Bool

/-- JavaScript truthiness of `pendingAlerts.value[id]`: an absent key and the
number `0` are falsy. -/
def truthy : Option Nat → Bool
  | none => false
  | some n => n != 0

/-- What the page offers to the "Trigger Alert" block: the name `Notification`,
and whether `localStorage.setItem` throws (a store without quota). -/
structure Page where
  notification : NotificationApi
  storageRejects : Bool

/-- The "Trigger Alert" block ends by an exception in this page. -/
def Page.throws (page : Page) : Bool :=
  page.notification.throws || page.storageRejects

/-- A page with a granted, working `Notification` and a working store. -/
def workingPage : Page :=
  { notification := NotificationApi.granted, storageRejects := false }

/-- A page where `Notification` is not defined. -/
def pageWithoutNotification : Page :=
  { notification := NotificationApi.missing, storageRejects := false }

/-- The body of the `forEach` callback in `checkGpuAlerts`, for one reading.
In the "Trigger Alert" block `playBeep()` catches its own errors; lines 110-113
are not guarded, and when they throw the callback ends there, before
`settings.enabled = false`; when `localStorage.setItem` throws on line 119 it
ends there, before the `delete`. -/
def checkGpu (page : Page) (now : Nat) (st : AlertState) (gpu : Gpu) : Outcome :=
  match st.gpuMonitors gpu.id with
  | some settings =>
    if settings.enabled then
      if gpu.mem_percent ≤ settings.threshold then
        if truthy (st.pendingAlerts gpu.id) = false then
          { state :=
              { st with pendingAlerts := Function.update st.pendingAlerts gpu.id (some now) }
            thrown := false }
        else
          let elapsed : ℚ := ((now : ℚ) - ((st.pendingAlerts gpu.id).getD 0 : ℚ)) / 1000
          if settings.duration ≤ elapsed then
            let beeped : List AlertEpisode := st.episodes ++
              [{ id := gpu.id, name := gpu.name, mem_percent := gpu.mem_percent,
                 seconds := ⌊elapsed⌋, notified := page.notification.shows }]
            if page.notification.throws then
              { state := { st with episodes := beeped }, thrown := true }
            else
              let disabled : MonitorConfig := { settings with enabled := false }
              let monitors := Function.update st.gpuMonitors gpu.id (some disabled)
              if page.storageRejects then
                { state := { st with gpuMonitors := monitors, episodes := beeped }
                  thrown := true }
              else
                { state :=
                    { gpuMonitors := monitors
                      pendingAlerts := Function.update st.pendingAlerts gpu.id none
                      storedMonitors := monitors
                      episodes := beeped }
                  thrown := false }
          else { state := st, thrown := false }
      else
        if truthy (st.pendingAlerts gpu.id) then
          { state := { st with pendingAlerts := Function.update st.pendingAlerts gpu.id none }
            thrown := false }
        else { state := st, thrown := false }
    else
      if truthy (st.pendingAlerts gpu.id) then
        { state := { st with pendingAlerts := Function.update st.pendingAlerts gpu.id none }
          thrown := false }
      else { state := st, thrown := false }
  | none =>
    if truthy (st.pendingAlerts gpu.id) then
      { state := { st with pendingAlerts := Function.update st.pendingAlerts gpu.id none }
        thrown := false }
    else { state := st, thrown := false }

/-- The call `data.gpus.forEach(...)`: the readings are visited in order, and an
exception in the callback ends the loop. -/
def forEachGpu (page : Page) (now : Nat) : List Gpu → AlertState → Outcome
  | [], st => { state := st, thrown := false }
  | gpu :: rest, st =>
    if (checkGpu page now st gpu).thrown then checkGpu page now st gpu
    else forEachGpu page now rest (checkGpu page now st gpu).state

/-- The function `checkGpuAlerts`: nothing happens without `data.gpus`. `page`
is what the page offers to the alert block, `now` the value of `Date.now()`. -/
def checkGpuAlerts (page : Page) (now : Nat) (data : Snapshot) (st : AlertState) :
    Outcome :=
  match data.gpus with
  | none => { state := st, thrown := false }
  | some gpus => forEachGpu page now gpus st

/-- Successive calls of `checkGpuAlerts`, one per tick `(Date.now(), snapshot)`,
each in a handler run of its own: an exception ends that run only. -/
def runAlerts (page : Page) (st : AlertState) (ticks : List (Nat × Snapshot)) :
    AlertState :=
  ticks.foldl (fun s tk => (checkGpuAlerts page tk.1 tk.2 s).state) st

/-- Number of alert episodes fired so far for device `d`. -/
def firedCount (st : AlertState) (d : Nat) : Nat :=
  (st.episodes.filter (fun e => e.id == d)).length

/-- The device has a pending alert: `pendingAlerts.value[d]` is truthy. -/
def hasPending (st : AlertState) (d : Nat) : Bool :=
  truthy (st.pendingAlerts d)

/-- The monitor of device `d` is on: `settings && settings.enabled`. -/
def monitorOn (st : AlertState) (d : Nat) : Bool :=
  match st.gpuMonitors d with
  | some settings => settings.enabled
  | none => false

/-- The snapshot of the end-to-end scenario. -/
def scenarioSnapshot : Snapshot :=
  { system := { cpu := 42, memory := { percent := 55 },
                network := { speed_sent_bytes := some 1200, speed_recv_bytes := some 3400 } }
    gpus := some [{ id := 0, name := "GPU0", gpu_util := 10, mem_percent := 3 }] }

/-- No pending alerts, and the given configuration for device 0 only. -/
def scenarioState (cfg : MonitorConfig) : AlertState :=
  { gpuMonitors := fun i => if i = 0 then some cfg else none
    pendingAlerts := fun _ => none
    storedMonitors := fun i => if i = 0 then some cfg else none
    episodes := [] }

/-- What `checkGpuAlerts` reads and writes about one device: its entry of
`gpuMonitors`, its entry of `pendingAlerts`, and how many episodes it fired. -/
structure DeviceView where
  config : Option MonitorConfig
  pending : Option Nat
  fired : Nat

/-- The projection of the alert state on device `d`. -/
def viewOf (st : AlertState) (d : Nat) : DeviceView :=
  { config := st.gpuMonitors d, pending := st.pendingAlerts d, fired := firedCount st d }

/-- The `forEach` callback of `checkGpuAlerts` seen from the device it visits
(`viewOf_checkGpu_self` proves that it is the projection of `checkGpu`). -/
def deviceStep (now : Nat) (mem : ℚ) (v : DeviceView) : DeviceView :=
  match v.config with
  | some settings =>
    if settings.enabled then
      if mem ≤ settings.threshold then
        if truthy v.pending = false then { v with pending := some now }
        else if settings.duration ≤ ((now : ℚ) - (v.pending.getD 0 : ℚ)) / 1000 then
          { config := some { settings with enabled := false }, pending := none,
            fired := v.fired + 1 }
        else v
      else if truthy v.pending then { v with pending := none } else v
    else if truthy v.pending then { v with pending := none } else v
  | none => if truthy v.pending then { v with pending := none } else v

/-- The readings of device `d` in a snapshot, in the order of `data.gpus`. -/
def readings (data : Snapshot) (d : Nat) : List Gpu :=
  (data.gpus.getD []).filter (fun g => g.id == d)

/-- One call of `checkGpuAlerts` seen from one device: its readings in turn. -/
def deviceTick (now : Nat) (rs : List Gpu) (v : DeviceView) : DeviceView :=
  rs.foldl (fun w g => deviceStep now g.mem_percent w) v

/-- Successive calls of `checkGpuAlerts` seen from device `d`. -/
def deviceRun (d : Nat) (v : DeviceView) (ticks : List (Nat × Snapshot)) : DeviceView :=
  ticks.foldl (fun w tk => deviceTick tk.1 (readings tk.2 d) w) v

/-- The device is idle in the snapshot: it has a reading there, and each of its
readings has `mem_percent` at or below `T`. -/
def IdleIn (d : Nat) (T : ℚ) (data : Snapshot) : Prop :=
  readings data d ≠ [] ∧ ∀ g ∈ readings data d, g.mem_percent ≤ T

/-- The device is busy in the snapshot: it has a reading there, and each of its
readings has `mem_percent` above `T`. -/
def BusyIn (d : Nat) (T : ℚ) (data : Snapshot) : Prop :=
  readings data d ≠ [] ∧ ∀ g ∈ readings data d, T < g.mem_percent

/-- Monitoring is on with threshold `T` and duration `D`, `c` episodes were
fired, and a truthy stamp, if any, is not before `L`. -/
def Live (T D : ℚ) (c L : Nat) (v : DeviceView) : Prop :=
  v.config = some ⟨true, T, D⟩ ∧ v.fired = c ∧ ∀ s, v.pending = some s → s ≠ 0 → L ≤ s

/-- The episode number `c + 1` was fired: monitoring is off and nothing is
pending. -/
def Done (T D : ℚ) (c : Nat) (v : DeviceView) : Prop :=
  v.config = some ⟨false, T, D⟩ ∧ v.pending = none ∧ v.fired = c + 1

/-- Monitoring is on and the stamp is exactly `t0`, or the episode was fired. -/
def Hot (T D : ℚ) (c t0 : Nat) (v : DeviceView) : Prop :=
  (v.config = some ⟨true, T, D⟩ ∧ v.pending = some t0 ∧ v.fired = c) ∨ Done T D c v

/-- The statement `if (pendingAlerts.value[id]) delete pendingAlerts.value[id]`
seen from the device. -/
def clearPending (v : DeviceView) : DeviceView :=
  if truthy v.pending then { v with pending := none } else v

/-- Monitoring is on with threshold `T` and duration `D`, `c` episodes were
fired and nothing is pending. -/
def Rest (T D : ℚ) (c : Nat) (v : DeviceView) : Prop :=
  v.config = some ⟨true, T, D⟩ ∧ truthy v.pending = false ∧ v.fired = c

/-- The device has no entry in `gpuMonitors`, or a disabled one. -/
def Unmonitored (v : DeviceView) : Prop :=
  v.config = none ∨ ∃ cfg, v.config = some cfg ∧ cfg.enabled = false

/-- The scenario snapshot with `mem_percent` of device 0 set to `mem`. -/
def snapshotWith (mem : ℚ) : Snapshot :=
  { scenarioSnapshot with
    gpus := some [{ id := 0, name := "GPU0", gpu_util := 10, mem_percent := mem }] }

/-! ## Chart buffers -/

/-- The constant `maxDataPoints`. -/
def maxDataPoints : Nat := 60

/-- The local time shown by `new Date()`. -/
structure WallClock where
  hours : Nat
  minutes : Nat
  seconds : Nat

/-- The expression `n.toString().padStart(2, '0')`. -/
def padStart2 (n : Nat) : String :=
  String.mk (List.replicate (2 - (toString n).length) '0') ++ toString n

/-- The label `timeStr` computed at the head of `updateCharts`. -/
def timeStr (now : WallClock) : String :=
  padStart2 now.hours ++ ":" ++ padStart2 now.minutes ++ ":" ++ padStart2 now.seconds

/-- The expression `x || 0` on a field that may be missing. -/
def orZero : Option ℚ → ℚ
  | some x => if x = 0 then 0 else x
  | none => 0

/-- The method `Array.prototype.shift`: the first element is dropped. -/
def shift {α : Type} (xs : List α) : List α := xs.tail

/-- Which chart containers exist in the page (`document.getElementById`). -/
structure Dom where
  cpuChartEl : Bool
  gpuChartEl : Bool
  netChartEl : Bool

/-- The chart buffers and chart handles of the script. `cpuChart`, `gpuChart`
and `netChart` say whether the handle is non-null; `gpuInitQueued` says whether
a `nextTick(() => initGpuChart())` callback is waiting. The contents handed to
`setOption` are not part of the state. -/
structure ChartState where
  timeLabels : List String
  cpuData : List ℚ
  memData : List ℚ
  netSentData : List ℚ
  netRecvData : List ℚ
  gpuData : Nat → Option (List ℚ)
  cpuChart : Bool
  gpuChart : Bool
  netChart : Bool
  gpuInitQueued : Bool

/-- The state of the buffers when the script starts. -/
def initialCharts : ChartState :=
  { timeLabels := [], cpuData := [], memData := [], netSentData := [], netRecvData := [],
    gpuData := fun _ => none, cpuChart := false, gpuChart := false, netChart := false,
    gpuInitQueued := false }

/-- The statement `if (gpuData[id].length > maxDataPoints) gpuData[id].shift()`. -/
def evict (xs : List ℚ) : List ℚ :=
  if xs.length > maxDataPoints then shift xs else xs

/-- The three buffer statements of the `forEach` callback in `updateCharts`:
create the series when absent, shift it when longer than `maxDataPoints`, push
`gpu.gpu_util`. -/
def recordGpu (gpuData : Nat → Option (List ℚ)) (gpu : Gpu) : Nat → Option (List ℚ) :=
  Function.update gpuData gpu.id (some (evict ((gpuData gpu.id).getD []) ++ [gpu.gpu_util]))

/-- The function `updateCharts`. -/
def updateCharts (now : WallClock) (data : Snapshot) (c : ChartState) : ChartState :=
  let c1 : ChartState :=
    if c.timeLabels.length > maxDataPoints then
      { c with
        timeLabels := shift c.timeLabels
        cpuData := shift c.cpuData
        memData := shift c.memData
        netSentData := shift c.netSentData
        netRecvData := shift c.netRecvData }
    else c
  let c2 : ChartState :=
    { c1 with
      timeLabels := c1.timeLabels ++ [timeStr now]
      cpuData := c1.cpuData ++ [data.system.cpu]
      memData := c1.memData ++ [data.system.memory.percent]
      netSentData := c1.netSentData ++ [orZero data.system.network.speed_sent_bytes]
      netRecvData := c1.netRecvData ++ [orZero data.system.network.speed_recv_bytes] }
  match data.gpus with
  | none => c2
  | some gpus =>
    if gpus.length > 0 then
      let c3 : ChartState := if !c2.gpuChart then { c2 with gpuInitQueued := true } else c2
      if c3.gpuChart then { c3 with gpuData := gpus.foldl recordGpu c3.gpuData } else c3
    else c2

/-- The function `initGpuChart`. -/
def initGpuChart (dom : Dom) (c : ChartState) : ChartState :=
  if !dom.gpuChartEl || c.gpuChart then c else { c with gpuChart := true }

/-- The function `initCpuChart`. -/
def initCpuChart (dom : Dom) (c : ChartState) : ChartState :=
  if !dom.cpuChartEl then c else { c with cpuChart := true }

/-- The function `initNetChart`. -/
def initNetChart (dom : Dom) (c : ChartState) : ChartState :=
  if !dom.netChartEl then c else { c with netChart := true }

/-- The queued `nextTick(() => initGpuChart())` callback runs once the current
handler has returned. -/
def flushNextTick (dom : Dom) (c : ChartState) : ChartState :=
  if c.gpuInitQueued then initGpuChart dom { c with gpuInitQueued := false } else c

/-- Successive calls of `updateCharts`, one per tick, each followed by the
callback it queued. -/
def runCharts (dom : Dom) (c : ChartState) (ticks : List (WallClock × Snapshot)) :
    ChartState :=
  ticks.foldl (fun b tk => flushNextTick dom (updateCharts tk.1 tk.2 b)) c

/-- The last `k` elements of a list, in order. -/
def lastN {α : Type} (k : Nat) (xs : List α) : List α := xs.drop (xs.length - k)

/-- The effect of `recordGpu` on the series of the device it visits. -/
def recordStep (o : Option (List ℚ)) (g : Gpu) : Option (List ℚ) :=
  some (evict (o.getD []) ++ [g.gpu_util])

/-- No device series is longer than `maxDataPoints + 1`. -/
def SeriesBounded (gpuData : Nat → Option (List ℚ)) : Prop :=
  ∀ id xs, gpuData id = some xs → xs.length ≤ maxDataPoints + 1

/-! ## WebSocket session -/

/-- The values of `WebSocket.readyState`. -/
inductive ReadyState where
  | CONNECTING
  | OPEN
  | CLOSING
  | CLOSED
  deriving DecidableEq

/-- What the page and the browser supply: the chart containers, what the alert
block finds, and `JSON.parse` (`none` when it throws a `SyntaxError`). -/
structure Env where
  dom : Dom
  page : Page
  jsonParse : String → Option Snapshot

/-- The two clock readings of one handler run: `Date.now()` and `new Date()`. -/
structure Clock where
  now : Nat
  wall : WallClock

/-- The state of the application. `sockets` holds the `readyState` of every
`WebSocket` created so far, `ws` the index of the one the variable `ws` refers
to, `timers` the delays of the pending `setTimeout(connect, delay)` calls, oldest
first; `stats` is `none` until a frame was stored. -/
structure AppState where
  stats : Option Snapshot
  connected : Bool
  sockets : List ReadyState
  ws : Option Nat
  timers : List Nat
  alerts : AlertState
  charts : ChartState

/-- The state in `setup`, before `onMounted` runs; `monitors` is what
`localStorage` holds under `gpuMonitors`. -/
def initialApp (monitors : Nat → Option MonitorConfig) : AppState :=
  { stats := none, connected := false, sockets := [], ws := none, timers := []
    alerts := { gpuMonitors := monitors, pendingAlerts := fun _ => none,
                storedMonitors := monitors, episodes := [] }
    charts := initialCharts }

/-- The function `connect`: a new socket is created and assigned to `ws` (the
four handlers below are installed on it). -/
def connect (s : AppState) : AppState :=
  { s with sockets := s.sockets ++ [ReadyState.CONNECTING], ws := some s.sockets.length }

/-- The handler `ws.onopen`. -/
def onopen (s : AppState) : AppState :=
  { s with connected := true }

/-- The handler `ws.onmessage`. When `JSON.parse` throws, the handler ends there
and nothing was written; when `checkGpuAlerts` throws, it ends before the
charts are touched. The `nextTick` callback of the branch `!cpuChart` runs when
the handler has returned, and so does the one queued by `updateCharts`. -/
def onmessage (env : Env) (clock : Clock) (payload : String) (s : AppState) : AppState :=
  match env.jsonParse payload with
  | none => s
  | some data =>
    let s1 : AppState := { s with stats := some data }
    let checked : Outcome := checkGpuAlerts env.page clock.now data s1.alerts
    let s2 : AppState := { s1 with alerts := checked.state }
    if checked.thrown then s2
    else if !s2.charts.cpuChart then
      { s2 with
        charts := flushNextTick env.dom
          (updateCharts clock.wall data (initNetChart env.dom (initCpuChart env.dom s2.charts))) }
    else
      { s2 with charts := flushNextTick env.dom (updateCharts clock.wall data s2.charts) }

/-- The handler `ws.onclose`: `setTimeout(connect, 3000)`. -/
def onclose (s : AppState) : AppState :=
  { s with connected := false, timers := s.timers ++ [3000] }

/-- The method `WebSocket.close()`: a socket that is connecting or open starts
closing, any other is left as it is. -/
def closeCall : ReadyState → ReadyState
  | ReadyState.CONNECTING => ReadyState.CLOSING
  | ReadyState.OPEN => ReadyState.CLOSING
  | r => r

/-- The handler `ws.onerror`: `ws.close()` on the socket `ws` refers to. -/
def onerror (s : AppState) : AppState :=
  match s.ws with
  | none => s
  | some i =>
    match s.sockets[i]? with
    | none => s
    | some r => { s with sockets := s.sockets.set i (closeCall r) }

/-- The events the browser delivers to the session: the `open`, `message`,
`error` and `close` events of socket `i`, and the oldest pending timeout
elapsing. -/
inductive Event where
  | opened (i : Nat)
  | message (i : Nat) (clock : Clock) (payload : String)
  | errored (i : Nat)
  | closed (i : Nat)
  | timer

/-- One event, `none` when the browser cannot deliver it: `open` comes to a
connecting socket, `message` to an open one, `error` and `close` to a socket
that is not closed yet, and `close` leaves it closed for good; a timeout can
elapse when one is pending, and then runs `connect`. -/
def step (env : Env) (s : AppState) : Event → Option AppState
  | Event.opened i =>
    if s.sockets[i]? = some ReadyState.CONNECTING then
      some (onopen { s with sockets := s.sockets.set i ReadyState.OPEN })
    else none
  | Event.message i clock payload =>
    if s.sockets[i]? = some ReadyState.OPEN then some (onmessage env clock payload s) else none
  | Event.errored i =>
    match s.sockets[i]? with
    | none => none
    | some r => if r = ReadyState.CLOSED then none else some (onerror s)
  | Event.closed i =>
    match s.sockets[i]? with
    | none => none
    | some r =>
      if r = ReadyState.CLOSED then none
      else some (onclose { s with sockets := s.sockets.set i ReadyState.CLOSED })
  | Event.timer =>
    match s.timers with
    | [] => none
    | _ :: rest => some (connect { s with timers := rest })

/-- The states the session can be in: `onMounted` has called `connect`, and
events were delivered one after the other. -/
inductive Reachable (env : Env) (monitors : Nat → Option MonitorConfig) : AppState → Prop where
  | mounted : Reachable env monitors (connect (initialApp monitors))
  | next (s : AppState) (e : Event) (s2 : AppState) :
      Reachable env monitors s → step env s e = some s2 → Reachable env monitors s2

/-- The number of sockets that are not closed yet. -/
def liveSockets : List ReadyState → Nat
  | [] => 0
  | r :: rs => (if r = ReadyState.CLOSED then 0 else 1) + liveSockets rs

/-- An environment whose `JSON.parse` accepts the one frame `"scenario"`. -/
def scenarioEnv : Env :=
  { dom := { cpuChartEl := true, gpuChartEl := true, netChartEl := true }
    page := workingPage
    jsonParse := fun p => if p = "scenario" then some scenarioSnapshot else none }

/-- The session after `onMounted` and the `open` event of the first socket,
nothing stored under `gpuMonitors`. -/
def openSession : AppState :=
  onopen { connect (initialApp (fun _ => none)) with sockets := [ReadyState.OPEN] }

/-- The scenario snapshot with a reading of device 0 and then one of device 1,
with the given values of `mem_percent`. -/
def twoDeviceSnapshot (mem0 mem1 : ℚ) : Snapshot :=
  { scenarioSnapshot with
    gpus := some [{ id := 0, name := "GPU0", gpu_util := 10, mem_percent := mem0 },
                  { id := 1, name := "GPU1", gpu_util := 10, mem_percent := mem1 }] }

/-- Device 0 is monitored with `cfg0`, device 1 has the entry `cfg1` (or none),
and both have a pending alert stamped 1000. -/
def twoDeviceState (cfg0 : MonitorConfig) (cfg1 : Option MonitorConfig) : AlertState :=
  { gpuMonitors := fun i => if i = 0 then some cfg0 else if i = 1 then cfg1 else none
    pendingAlerts := fun i => if i = 0 ∨ i = 1 then some 1000 else none
    storedMonitors := fun i => if i = 0 then some cfg0 else if i = 1 then cfg1 else none
    episodes := [] }

/-! ## Theorems -/

theorem checkGpu_thrown (page : Page) (hn : page.throws = false) (now : Nat)
    (st : AlertState) (g : Gpu) : (checkGpu page now st g).thrown = false := by
  have hn2 : page.notification.throws = false ∧ page.storageRejects = false := by
    simpa [Page.throws] using hn
  unfold checkGpu
  cases h : st.gpuMonitors g.id with
  | none => simp only []; split_ifs <;> rfl
  | some cfg => simp only [hn2.1, hn2.2, Bool.false_eq_true, if_false]; split_ifs <;> rfl

theorem viewOf_checkGpu_self (page : Page) (hn : page.throws = false) (now : Nat)
    (st : AlertState) (g : Gpu) :
    viewOf (checkGpu page now st g).state g.id
      = deviceStep now g.mem_percent (viewOf st g.id) := by
  have hn2 : page.notification.throws = false ∧ page.storageRejects = false := by
    simpa [Page.throws] using hn
  unfold checkGpu deviceStep viewOf
  cases h : st.gpuMonitors g.id with
  | none => simp only []; split_ifs <;> simp [firedCount, h]
  | some cfg =>
    simp only [hn2.1, hn2.2, Bool.false_eq_true, if_false]
    split_ifs <;> simp [firedCount, h, List.filter_append]

theorem viewOf_checkGpu_other (page : Page) (now : Nat) (st : AlertState) (g : Gpu)
    (d : Nat) (hd : g.id ≠ d) :
    viewOf (checkGpu page now st g).state d = viewOf st d := by
  have hd2 : d ≠ g.id := fun h => hd h.symm
  unfold checkGpu viewOf
  cases h : st.gpuMonitors g.id with
  | none => simp only []; split_ifs <;> simp [firedCount, Function.update_noteq hd2]
  | some cfg =>
    simp only []; split_ifs <;> simp [firedCount, Function.update_noteq hd2, List.filter_append, hd]

theorem viewOf_forEachGpu (page : Page) (hn : page.throws = false) (now d : Nat)
    (gs : List Gpu) :
    ∀ st : AlertState, viewOf (forEachGpu page now gs st).state d
      = deviceTick now (gs.filter (fun g => g.id == d)) (viewOf st d) := by
  induction gs with
  | nil => intro st; rfl
  | cons g gs ih =>
    intro st
    rw [forEachGpu, checkGpu_thrown page hn now st g]
    simp only [Bool.false_eq_true, if_false]
    rw [ih]
    by_cases hg : g.id = d
    · subst hg
      simp [List.filter_cons, deviceTick, viewOf_checkGpu_self page hn]
    · have hg2 : (g.id == d) = false := by simpa using hg
      rw [viewOf_checkGpu_other page now st g d hg, List.filter_cons, hg2]
      rfl

theorem viewOf_checkGpuAlerts (page : Page) (hn : page.throws = false)
    (now d : Nat) (data : Snapshot) (st : AlertState) :
    viewOf (checkGpuAlerts page now data st).state d
      = deviceTick now (readings data d) (viewOf st d) := by
  unfold checkGpuAlerts readings
  cases h : data.gpus with
  | none => rfl
  | some gs => simpa using viewOf_forEachGpu page hn now d gs st

theorem viewOf_runAlerts (page : Page) (hn : page.throws = false) (d : Nat)
    (ticks : List (Nat × Snapshot)) :
    ∀ st : AlertState, viewOf (runAlerts page st ticks) d
      = deviceRun d (viewOf st d) ticks := by
  induction ticks with
  | nil => intro st; rfl
  | cons tk ticks ih =>
    intro st
    simp only [runAlerts, deviceRun, List.foldl_cons] at ih ⊢
    rw [ih, viewOf_checkGpuAlerts page hn]

theorem runAlerts_append (page : Page) (st : AlertState) (xs ys : List (Nat × Snapshot)) :
    runAlerts page st (xs ++ ys) = runAlerts page (runAlerts page st xs) ys := by
  simp [runAlerts, List.foldl_append]

theorem deviceRun_append (d : Nat) (v : DeviceView) (xs ys : List (Nat × Snapshot)) :
    deviceRun d v (xs ++ ys) = deviceRun d (deviceRun d v xs) ys := by
  simp [deviceRun, List.foldl_append]

theorem truthy_eq_true_iff (p : Option Nat) : truthy p = true ↔ ∃ s, p = some s ∧ s ≠ 0 := by
  cases p with
  | none => simp [truthy]
  | some s => simp [truthy]

/-- One reading never breaks the invariant, and fires only late enough. -/
theorem deviceStep_safe (T D : ℚ) (c L now : Nat) (m : ℚ) (v : DeviceView)
    (hv : Live T D c L v ∨ Done T D c v) (hL : L ≤ now) :
    (Live T D c L (deviceStep now m v) ∨ Done T D c (deviceStep now m v)) ∧
      ((deviceStep now m v).fired ≠ v.fired → D ≤ ((now : ℚ) - L) / 1000) := by
  rcases hv with ⟨hc, hf, hp⟩ | ⟨hc, hp, hf⟩
  · unfold deviceStep
    rw [hc]
    simp only [if_true]
    by_cases hm : m ≤ T
    · rw [if_pos hm]
      by_cases ht : truthy v.pending = false
      · rw [if_pos ht]
        refine ⟨Or.inl ⟨rfl, hf, ?_⟩, fun h => absurd rfl h⟩
        intro s hs _
        simp only [Option.some.injEq] at hs
        omega
      · rw [if_neg ht]
        have ht2 : truthy v.pending = true := by simpa using ht
        obtain ⟨s, hs, hs0⟩ := (truthy_eq_true_iff _).1 ht2
        have hLs : L ≤ s := hp s hs hs0
        by_cases hd : D ≤ ((now : ℚ) - (v.pending.getD 0 : ℚ)) / 1000
        · rw [if_pos hd]
          refine ⟨Or.inr ⟨rfl, rfl, by simp [hf]⟩, fun _ => ?_⟩
          rw [hs] at hd
          simp only [Option.getD_some] at hd
          have hq : (L : ℚ) ≤ (s : ℚ) := by exact_mod_cast hLs
          linarith
        · rw [if_neg hd]
          exact ⟨Or.inl ⟨hc, hf, hp⟩, fun h => absurd rfl h⟩
    · rw [if_neg hm]
      split_ifs
      · exact ⟨Or.inl ⟨rfl, hf, by simp⟩, fun h => absurd rfl h⟩
      · exact ⟨Or.inl ⟨hc, hf, hp⟩, fun h => absurd rfl h⟩
  · have hd : deviceStep now m v = v := by
      unfold deviceStep
      rw [hc]
      simp [hp, truthy]
    rw [hd]
    exact ⟨Or.inr ⟨hc, hp, hf⟩, fun h => absurd rfl h⟩


theorem deviceTick_safe (T D : ℚ) (c L now : Nat) (rs : List Gpu) :
    ∀ v : DeviceView, (Live T D c L v ∨ Done T D c v) → L ≤ now →
      (Live T D c L (deviceTick now rs v) ∨ Done T D c (deviceTick now rs v)) ∧
        ((deviceTick now rs v).fired ≠ v.fired → D ≤ ((now : ℚ) - L) / 1000) := by
  induction rs with
  | nil => intro v hv _; exact ⟨hv, fun h => absurd rfl h⟩
  | cons g rs ih =>
    intro v hv hL
    obtain ⟨h1, h2⟩ := deviceStep_safe T D c L now g.mem_percent v hv hL
    obtain ⟨h3, h4⟩ := ih (deviceStep now g.mem_percent v) h1 hL
    refine ⟨h3, fun hne => ?_⟩
    by_cases hstep : (deviceStep now g.mem_percent v).fired = v.fired
    · apply h4
      intro heq
      apply hne
      simp only [deviceTick, List.foldl_cons] at heq ⊢
      rw [heq, hstep]
    · exact h2 hstep

theorem deviceRun_safe (T D : ℚ) (c L d : Nat) (ticks : List (Nat × Snapshot)) :
    ∀ v : DeviceView, (Live T D c L v ∨ Done T D c v) → (∀ tk ∈ ticks, L ≤ tk.1) →
      (Live T D c L (deviceRun d v ticks) ∨ Done T D c (deviceRun d v ticks)) := by
  induction ticks with
  | nil => intro v hv _; exact hv
  | cons tk ticks ih =>
    intro v hv hL
    have h1 := (deviceTick_safe T D c L tk.1 (readings tk.2 d) v hv
      (hL tk (List.mem_cons_self _ _))).1
    exact ih _ h1 (fun x hx => hL x (List.mem_cons_of_mem _ hx))

theorem Rest.live {T D : ℚ} {c : Nat} {v : DeviceView} (h : Rest T D c v) (L : Nat) :
    Live T D c L v := by
  obtain ⟨hc, hp, hf⟩ := h
  refine ⟨hc, hf, fun s hs hs0 => ?_⟩
  rw [hs] at hp
  simp [truthy, hs0] at hp

theorem deviceStep_done (T D : ℚ) (c now : Nat) (m : ℚ) (v : DeviceView)
    (h : Done T D c v) : deviceStep now m v = v := by
  obtain ⟨hc, hp, _⟩ := h
  unfold deviceStep
  rw [hc]
  simp [hp, truthy]

theorem deviceTick_done (T D : ℚ) (c now : Nat) (rs : List Gpu) (v : DeviceView)
    (h : Done T D c v) : deviceTick now rs v = v := by
  induction rs with
  | nil => rfl
  | cons g rs ih =>
    simp only [deviceTick, List.foldl_cons] at ih ⊢
    rw [deviceStep_done T D c now g.mem_percent v h, ih]

theorem deviceRun_done (T D : ℚ) (c d : Nat) (ticks : List (Nat × Snapshot)) (v : DeviceView)
    (h : Done T D c v) : deviceRun d v ticks = v := by
  induction ticks with
  | nil => rfl
  | cons tk ticks ih =>
    simp only [deviceRun, List.foldl_cons] at ih ⊢
    rw [deviceTick_done T D c tk.1 _ v h, ih]

theorem deviceStep_arm (T D : ℚ) (c now : Nat) (m : ℚ) (v : DeviceView)
    (h : Rest T D c v) (hm : m ≤ T) :
    deviceStep now m v = { v with pending := some now } := by
  obtain ⟨hc, hp, _⟩ := h
  unfold deviceStep
  rw [hc]
  simp [hp, hm]

theorem deviceStep_hot (T D : ℚ) (c t0 now : Nat) (m : ℚ) (v : DeviceView)
    (h : Hot T D c t0 v) (ht0 : 0 < t0) (hm : m ≤ T) :
    Hot T D c t0 (deviceStep now m v) ∧
      (D ≤ ((now : ℚ) - t0) / 1000 → Done T D c (deviceStep now m v)) := by
  rcases h with ⟨hc, hp, hf⟩ | hdone
  · have ht : truthy (some t0) = true := by
      simp [truthy]; omega
    by_cases hd : D ≤ ((now : ℚ) - t0) / 1000
    · have hfire : Done T D c (deviceStep now m v) := by
        unfold deviceStep Done
        rw [hc]
        simp [hp, ht, hm, hd, hf]
      exact ⟨Or.inr hfire, fun _ => hfire⟩
    · have hstay : deviceStep now m v = v := by
        unfold deviceStep
        rw [hc]
        simp [hp, ht, hm, hd]
      rw [hstay]
      exact ⟨Or.inl ⟨hc, hp, hf⟩, fun h => absurd h hd⟩
  · rw [deviceStep_done T D c now m v hdone]
    exact ⟨Or.inr hdone, fun _ => hdone⟩

theorem deviceTick_hot (T D : ℚ) (c t0 now : Nat) (ht0 : 0 < t0) (rs : List Gpu) :
    ∀ v : DeviceView, Hot T D c t0 v → (∀ g ∈ rs, g.mem_percent ≤ T) →
      Hot T D c t0 (deviceTick now rs v) ∧
        (rs ≠ [] → D ≤ ((now : ℚ) - t0) / 1000 → Done T D c (deviceTick now rs v)) := by
  induction rs with
  | nil => intro v hv _; exact ⟨hv, fun h => absurd rfl h⟩
  | cons g rs ih =>
    intro v hv hidle
    obtain ⟨h1, h2⟩ := deviceStep_hot T D c t0 now g.mem_percent v hv ht0
      (hidle g (List.mem_cons_self _ _))
    obtain ⟨h3, _⟩ := ih _ h1 (fun x hx => hidle x (List.mem_cons_of_mem _ hx))
    refine ⟨h3, fun _ hd => ?_⟩
    have hdone := h2 hd
    simp only [deviceTick, List.foldl_cons]
    have := deviceTick_done T D c now rs _ hdone
    simp only [deviceTick] at this
    rw [this]
    exact hdone

theorem deviceTick_arm (T D : ℚ) (c now : Nat) (hnow : 0 < now) (rs : List Gpu)
    (v : DeviceView) (hv : Rest T D c v) (hne : rs ≠ [])
    (hidle : ∀ g ∈ rs, g.mem_percent ≤ T) :
    Hot T D c now (deviceTick now rs v) := by
  cases rs with
  | nil => exact absurd rfl hne
  | cons g rs =>
    have h1 : Hot T D c now (deviceStep now g.mem_percent v) := by
      rw [deviceStep_arm T D c now g.mem_percent v hv (hidle g (List.mem_cons_self _ _))]
      exact Or.inl ⟨hv.1, rfl, hv.2.2⟩
    exact (deviceTick_hot T D c now now hnow rs _ h1
      (fun x hx => hidle x (List.mem_cons_of_mem _ hx))).1

theorem deviceRun_hot (T D : ℚ) (c t0 d : Nat) (ht0 : 0 < t0) (ticks : List (Nat × Snapshot)) :
    ∀ v : DeviceView, Hot T D c t0 v → (∀ tk ∈ ticks, IdleIn d T tk.2) →
      Hot T D c t0 (deviceRun d v ticks) := by
  induction ticks with
  | nil => intro v hv _; exact hv
  | cons tk ticks ih =>
    intro v hv hidle
    have h1 := (deviceTick_hot T D c t0 tk.1 ht0 (readings tk.2 d) v hv
      (hidle tk (List.mem_cons_self _ _)).2).1
    exact ih _ h1 (fun x hx => hidle x (List.mem_cons_of_mem _ hx))

theorem Done.facts {T D : ℚ} {c d : Nat} {st : AlertState} (h : Done T D c (viewOf st d)) :
    firedCount st d = c + 1 ∧ monitorOn st d = false ∧ hasPending st d = false := by
  obtain ⟨hc, hp, hf⟩ := h
  simp only [viewOf] at hc hp hf
  exact ⟨hf, by simp [monitorOn, hc], by simp [hasPending, hp, truthy]⟩


theorem fired_runAlerts (page : Page) (hn : page.throws = false) (d : Nat)
    (st : AlertState) (ticks : List (Nat × Snapshot)) :
    firedCount (runAlerts page st ticks) d = (deviceRun d (viewOf st d) ticks).fired := by
  rw [← viewOf_runAlerts page hn]; rfl

theorem deviceRun_snoc (d : Nat) (v : DeviceView) (pre : List (Nat × Snapshot))
    (tk : Nat × Snapshot) :
    deviceRun d v (pre ++ [tk]) = deviceTick tk.1 (readings tk.2 d) (deviceRun d v pre) := by
  rw [deviceRun_append]; rfl

theorem clearPending_config (v : DeviceView) : (clearPending v).config = v.config := by
  unfold clearPending; split_ifs <;> rfl

theorem clearPending_fired (v : DeviceView) : (clearPending v).fired = v.fired := by
  unfold clearPending; split_ifs <;> rfl

theorem clearPending_truthy (v : DeviceView) : truthy (clearPending v).pending = false := by
  unfold clearPending
  split_ifs with h
  · rfl
  · simpa using h

theorem clearPending_pending (v : DeviceView) (h : v.pending ≠ some 0) :
    (clearPending v).pending = none := by
  unfold clearPending
  split_ifs with ht
  · rfl
  · cases hp : v.pending with
    | none => rfl
    | some s =>
      rw [hp] at ht h
      have : s = 0 := by simpa [truthy] using ht
      exact absurd (by rw [this]) h

theorem clearPending_idem (v : DeviceView) : clearPending (clearPending v) = clearPending v := by
  have h := clearPending_truthy v
  generalize clearPending v = w at h ⊢
  unfold clearPending
  rw [h]
  rfl

theorem deviceStep_unmonitored (now : Nat) (m : ℚ) (v : DeviceView) (h : Unmonitored v) :
    deviceStep now m v = clearPending v := by
  unfold deviceStep clearPending
  rcases h with h | ⟨cfg, h, he⟩
  · rw [h]
  · rw [h]; simp [he]

theorem deviceStep_busy (T D : ℚ) (now : Nat) (m : ℚ) (v : DeviceView)
    (h : v.config = some ⟨true, T, D⟩) (hm : T < m) :
    deviceStep now m v = clearPending v := by
  unfold deviceStep clearPending
  rw [h]
  simp [not_le.2 hm]

/-- When every reading of a call only clears the pending entry, so does the call. -/
theorem deviceTick_clear (now : Nat) (rs : List Gpu) (v : DeviceView)
    (h : ∀ g ∈ rs, ∀ w : DeviceView, w.config = v.config →
      deviceStep now g.mem_percent w = clearPending w) :
    (rs = [] → deviceTick now rs v = v) ∧ (rs ≠ [] → deviceTick now rs v = clearPending v) ∧
      deviceTick now rs (clearPending v) = clearPending v := by
  induction rs with
  | nil => exact ⟨fun _ => rfl, fun h => absurd rfl h, rfl⟩
  | cons g rs ih =>
    have ih2 := ih (fun x hx => h x (List.mem_cons_of_mem _ hx))
    have hg := h g (List.mem_cons_self _ _)
    refine ⟨fun h => by simp at h, fun _ => ?_, ?_⟩
    · simp only [deviceTick, List.foldl_cons] at ih2 ⊢
      rw [hg v rfl]
      exact ih2.2.2
    · simp only [deviceTick, List.foldl_cons] at ih2 ⊢
      rw [hg _ (clearPending_config v), clearPending_idem]
      exact ih2.2.2

theorem deviceRun_clear (d : Nat) (ticks : List (Nat × Snapshot)) (v : DeviceView)
    (h : ∀ tk ∈ ticks, ∀ g ∈ readings tk.2 d, ∀ w : DeviceView, w.config = v.config →
      deviceStep tk.1 g.mem_percent w = clearPending w) :
    (ticks ≠ [] → (∀ tk ∈ ticks, readings tk.2 d ≠ []) → deviceRun d v ticks = clearPending v) ∧
      deviceRun d (clearPending v) ticks = clearPending v := by
  induction ticks with
  | nil => exact ⟨fun h => absurd rfl h, rfl⟩
  | cons tk ticks ih =>
    have ih2 := ih (fun x hx => h x (List.mem_cons_of_mem _ hx))
    have htk := deviceTick_clear tk.1 (readings tk.2 d) v (h tk (List.mem_cons_self _ _))
    refine ⟨fun _ hne => ?_, ?_⟩
    · simp only [deviceRun, List.foldl_cons] at ih2 ⊢
      rw [htk.2.1 (hne tk (List.mem_cons_self _ _))]
      exact ih2.2
    · simp only [deviceRun, List.foldl_cons] at ih2 ⊢
      rw [htk.2.2]
      exact ih2.2

theorem monitorOn_false_iff (st : AlertState) (d : Nat) :
    monitorOn st d = false ↔ Unmonitored (viewOf st d) := by
  unfold monitorOn Unmonitored viewOf
  cases h : st.gpuMonitors d with
  | none => simp
  | some cfg => simp


/-! ### Sustained idle (C1) -/

/-- C1, as the code has it, where the "Trigger Alert" block does not throw
(`Notification` is defined, its constructor works and `localStorage.setItem`
succeeds). A device
monitored with threshold `T` and duration `D` and without pending alert is idle
at every tick of `(t0, s0) :: rest`, the clock never going back. Then (1) when
the snapshot at `t0` has one reading of the device, the tick at `t0` fires
nothing and only writes the stamp `t0`, whatever `D` is; (2) the count of
episodes of the device does not change at a tick `tk` with
`(tk - t0) / 1000 < D`; (3) after every prefix of the ticks the device has fired
no episode, or exactly one, and in that case the monitor is off and nothing is
pending, also after every longer prefix; (4) when `t0` is not zero and a tick
after the first has `(tk - t0) / 1000 ≥ D`, the one episode has been fired once
that tick is processed. -/
theorem sustained_idle_fires_once (page : Page) (T D : ℚ) (d : Nat)
    (st : AlertState) (t0 : Nat) (s0 : Snapshot) (rest : List (Nat × Snapshot))
    (hn : page.throws = false)
    (hcfg : st.gpuMonitors d = some ⟨true, T, D⟩)
    (hpend : hasPending st d = false)
    (hidle : ∀ tk ∈ (t0, s0) :: rest, IdleIn d T tk.2)
    (hsorted : List.Sorted (fun a b => a ≤ b) (t0 :: rest.map Prod.fst)) :
    ((readings s0 d).length = 1 →
        firedCount (runAlerts page st [(t0, s0)]) d = firedCount st d ∧
        (runAlerts page st [(t0, s0)]).pendingAlerts d = some t0 ∧
        monitorOn (runAlerts page st [(t0, s0)]) d = true) ∧
    (∀ pre tk post, (t0, s0) :: rest = pre ++ tk :: post → ((tk.1 : ℚ) - t0) / 1000 < D →
        firedCount (runAlerts page st (pre ++ [tk])) d
          = firedCount (runAlerts page st pre) d) ∧
    (∀ pre post, (t0, s0) :: rest = pre ++ post →
        firedCount (runAlerts page st pre) d = firedCount st d ∨
        (firedCount (runAlerts page st pre) d = firedCount st d + 1 ∧
          ∀ mid post2, post = mid ++ post2 →
            firedCount (runAlerts page st (pre ++ mid)) d = firedCount st d + 1 ∧
            monitorOn (runAlerts page st (pre ++ mid)) d = false ∧
            hasPending (runAlerts page st (pre ++ mid)) d = false)) ∧
    (0 < t0 → ∀ pre tk post, rest = pre ++ tk :: post → D ≤ ((tk.1 : ℚ) - t0) / 1000 →
        firedCount (runAlerts page st ((t0, s0) :: (pre ++ [tk]))) d = firedCount st d + 1) := by
  have hrest : Rest T D (firedCount st d) (viewOf st d) := ⟨hcfg, hpend, rfl⟩
  have htimes : ∀ tk ∈ (t0, s0) :: rest, t0 ≤ tk.1 := by
    intro tk htk
    rcases List.mem_cons.1 htk with h | h
    · rw [h]
    · exact (List.sorted_cons.1 hsorted).1 tk.1 (List.mem_map_of_mem Prod.fst h)
  have hinv : ∀ pre post, (t0, s0) :: rest = pre ++ post →
      Live T D (firedCount st d) t0 (deviceRun d (viewOf st d) pre) ∨
        Done T D (firedCount st d) (deviceRun d (viewOf st d) pre) := by
    intro pre post hsplit
    apply deviceRun_safe T D _ t0 d pre _ (Or.inl (hrest.live t0))
    intro tk htk
    exact htimes tk (by rw [hsplit]; exact List.mem_append_left _ htk)
  refine ⟨?_, ?_, ?_, ?_⟩
  · intro hone
    obtain ⟨g, hg⟩ := List.length_eq_one.1 hone
    have hgm : g.mem_percent ≤ T :=
      (hidle _ (List.mem_cons_self _ _)).2 g (by rw [hg]; simp)
    have hv : viewOf (runAlerts page st [(t0, s0)]) d
        = { viewOf st d with pending := some t0 } := by
      rw [viewOf_runAlerts page hn]
      simp only [deviceRun, List.foldl_cons, List.foldl_nil, hg, deviceTick]
      exact deviceStep_arm T D _ t0 g.mem_percent _ hrest hgm
    refine ⟨congrArg DeviceView.fired hv, congrArg DeviceView.pending hv, ?_⟩
    have hc : (runAlerts page st [(t0, s0)]).gpuMonitors d = st.gpuMonitors d :=
      congrArg DeviceView.config hv
    simp [monitorOn, hc, hcfg]
  · intro pre tk post hsplit hlt
    have htk : t0 ≤ tk.1 := htimes tk (by rw [hsplit]; simp)
    have h := (deviceTick_safe T D _ t0 tk.1 (readings tk.2 d) _ (hinv pre _ hsplit) htk).2
    rw [fired_runAlerts page hn, fired_runAlerts page hn, deviceRun_snoc]
    by_contra hne
    exact absurd (h hne) (not_le.2 hlt)
  · intro pre post hsplit
    rcases hinv pre post hsplit with hl | hdone
    · left
      rw [fired_runAlerts page hn]
      exact hl.2.1
    · right
      refine ⟨by rw [fired_runAlerts page hn]; exact hdone.2.2, fun mid post2 _ => ?_⟩
      have hv : Done T D (firedCount st d) (viewOf (runAlerts page st (pre ++ mid)) d) := by
        rw [viewOf_runAlerts page hn, deviceRun_append, deviceRun_done T D _ d mid _ hdone]
        exact hdone
      exact hv.facts
  · intro ht0 pre tk post hsplit hd
    have h1 : Hot T D (firedCount st d) t0 (deviceTick t0 (readings s0 d) (viewOf st d)) :=
      deviceTick_arm T D _ t0 ht0 _ _ hrest (hidle _ (List.mem_cons_self _ _)).1
        (hidle _ (List.mem_cons_self _ _)).2
    have h2 : Hot T D (firedCount st d) t0
        (deviceRun d (deviceTick t0 (readings s0 d) (viewOf st d)) pre) := by
      apply deviceRun_hot T D _ t0 d ht0 pre _ h1
      intro x hx
      exact hidle x (List.mem_cons_of_mem _ (by rw [hsplit]; exact List.mem_append_left _ hx))
    have hik : IdleIn d T tk.2 :=
      hidle tk (List.mem_cons_of_mem _ (by rw [hsplit]; simp))
    have h3 := (deviceTick_hot T D (firedCount st d) t0 tk.1 ht0 (readings tk.2 d) _ h2
      hik.2).2 hik.1 hd
    rw [fired_runAlerts page hn]
    have hrun : deviceRun d (viewOf st d) ((t0, s0) :: (pre ++ [tk]))
        = deviceTick tk.1 (readings tk.2 d)
            (deviceRun d (deviceTick t0 (readings s0 d) (viewOf st d)) pre) := by
      rw [← List.cons_append, deviceRun_snoc]
      rfl
    rw [hrun]
    exact h3.2.2

/-- The claim C1 fails on the code, with a working `Notification`, at two
inputs: with duration 0 and a single tick (that tick has
`(t0 - t0) / 1000 ≥ 0`, and only the stamp is written), and with the clock at 0
on the first tick (the stamp 0 is falsy, the tick at 60 s stamps again instead
of firing). -/
theorem sustained_idle_not_at_first_tick :
    ((0 : ℚ) ≤ ((1000 : ℚ) - 1000) / 1000 ∧
      firedCount (runAlerts workingPage (scenarioState ⟨true, 10, 0⟩)
        [(1000, snapshotWith 5)]) 0 = 0) ∧
    ((60 : ℚ) ≤ ((60000 : ℚ) - 0) / 1000 ∧
      firedCount (runAlerts workingPage (scenarioState ⟨true, 10, 60⟩)
        [(0, snapshotWith 5), (60000, snapshotWith 5)]) 0 = 0) := by
  refine ⟨⟨by norm_num, ?_⟩, ⟨by norm_num, ?_⟩⟩
  · norm_num [firedCount, runAlerts, checkGpuAlerts, forEachGpu, checkGpu, scenarioState,
      snapshotWith, truthy, NotificationApi.throws, Page.throws, workingPage]
  · norm_num [firedCount, runAlerts, checkGpuAlerts, forEachGpu, checkGpu, scenarioState,
      snapshotWith, truthy, NotificationApi.throws, Page.throws, workingPage]

/-- The spec instance of C1 (threshold 10, duration 60, `mem_percent` 5): the
tick at `t0` fires nothing, nothing is fired at 31 s, and one episode has been
fired at 61 s. -/
theorem sustained_idle_witness :
    firedCount (runAlerts workingPage (scenarioState ⟨true, 10, 60⟩)
        [(1000, snapshotWith 5)]) 0 = firedCount (scenarioState ⟨true, 10, 60⟩) 0 ∧
    firedCount (runAlerts workingPage (scenarioState ⟨true, 10, 60⟩)
        ([(1000, snapshotWith 5)] ++ [(31000, snapshotWith 5)])) 0
      = firedCount (runAlerts workingPage (scenarioState ⟨true, 10, 60⟩)
        [(1000, snapshotWith 5)]) 0 ∧
    firedCount (runAlerts workingPage (scenarioState ⟨true, 10, 60⟩)
        ((1000, snapshotWith 5) :: ([(31000, snapshotWith 5)] ++ [(61000, snapshotWith 5)]))) 0
      = firedCount (scenarioState ⟨true, 10, 60⟩) 0 + 1 := by
  have h := sustained_idle_fires_once workingPage 10 60 0
    (scenarioState ⟨true, 10, 60⟩) 1000
    (snapshotWith 5) [(31000, snapshotWith 5), (61000, snapshotWith 5)] rfl rfl rfl
    (by
      intro tk htk
      have hs : tk.2 = snapshotWith 5 := by
        simp at htk
        rcases htk with h | h | h <;> rw [h]
      rw [hs]
      refine ⟨by simp [readings, snapshotWith], ?_⟩
      intro g hg
      simp [readings, snapshotWith] at hg
      rw [hg]
      norm_num)
    (by simp)
  refine ⟨(h.1 (by simp [readings, snapshotWith])).1,
    h.2.1 [(1000, snapshotWith 5)] (31000, snapshotWith 5) [(61000, snapshotWith 5)] rfl
      (by norm_num), ?_⟩
  exact h.2.2.2 (by norm_num) [(31000, snapshotWith 5)] (61000, snapshotWith 5) [] rfl
    (by norm_num)

/-- Where `Notification` is not defined, the "Trigger Alert" block ends at line
110: in the scenario with duration 0 the calls at 2 s and at 3 s both beep, and
the monitor of device 0 is still enabled and its stamp still there. -/
theorem notification_throw_keeps_monitor_on :
    firedCount (runAlerts pageWithoutNotification (scenarioState ⟨true, 10, 0⟩)
      [(1000, scenarioSnapshot), (2000, scenarioSnapshot), (3000, scenarioSnapshot)]) 0 = 2 ∧
    monitorOn (runAlerts pageWithoutNotification (scenarioState ⟨true, 10, 0⟩)
      [(1000, scenarioSnapshot), (2000, scenarioSnapshot), (3000, scenarioSnapshot)]) 0 = true ∧
    (runAlerts pageWithoutNotification (scenarioState ⟨true, 10, 0⟩)
      [(1000, scenarioSnapshot), (2000, scenarioSnapshot), (3000, scenarioSnapshot)]).pendingAlerts
        0 = some 1000 := by
  refine ⟨?_, ?_, ?_⟩ <;>
    norm_num [firedCount, monitorOn, runAlerts, checkGpuAlerts, forEachGpu, checkGpu,
      scenarioState, scenarioSnapshot, truthy, NotificationApi.throws, Page.throws,
      pageWithoutNotification]

/-! ### Zero duration (C3) -/

/-- The claim C3 fails on the code: in the scenario (threshold 10, duration 0,
`mem_percent` 3, nothing pending) the single call of `checkGpuAlerts` fires no
episode and leaves the monitor of device 0 enabled. -/
theorem zero_duration_first_call_fires_nothing :
    firedCount (checkGpuAlerts workingPage 1700000000000 scenarioSnapshot
        (scenarioState ⟨true, 10, 0⟩)).state 0 = 0 ∧
    monitorOn (checkGpuAlerts workingPage 1700000000000 scenarioSnapshot
        (scenarioState ⟨true, 10, 0⟩)).state 0 = true := by
  constructor <;>
    norm_num [firedCount, monitorOn, checkGpuAlerts, forEachGpu, checkGpu, scenarioState,
      scenarioSnapshot, truthy, NotificationApi.throws, Page.throws, workingPage]

/-- C3, as the code has it. In the scenario the first call of `checkGpuAlerts`
only writes the stamp: no episode, no exception, the monitor still enabled, for
every clock reading and every page. Where the "Trigger Alert" block does not
throw, and with a clock that is not zero at the first call and
does not go back, the second call on the same snapshot fires the one episode,
disables the monitor of device 0 and clears the pending alert. -/
theorem zero_duration_fires_on_second_call (page : Page) (now now2 : Nat) :
    ((checkGpuAlerts page now scenarioSnapshot (scenarioState ⟨true, 10, 0⟩)).thrown = false ∧
      firedCount (checkGpuAlerts page now scenarioSnapshot
        (scenarioState ⟨true, 10, 0⟩)).state 0 = 0 ∧
      monitorOn (checkGpuAlerts page now scenarioSnapshot
        (scenarioState ⟨true, 10, 0⟩)).state 0 = true ∧
      (checkGpuAlerts page now scenarioSnapshot
        (scenarioState ⟨true, 10, 0⟩)).state.pendingAlerts 0 = some now) ∧
    (page.throws = false → 0 < now → now ≤ now2 →
      firedCount (checkGpuAlerts page now2 scenarioSnapshot
        (checkGpuAlerts page now scenarioSnapshot
          (scenarioState ⟨true, 10, 0⟩)).state).state 0 = 1 ∧
      monitorOn (checkGpuAlerts page now2 scenarioSnapshot
        (checkGpuAlerts page now scenarioSnapshot
          (scenarioState ⟨true, 10, 0⟩)).state).state 0 = false ∧
      hasPending (checkGpuAlerts page now2 scenarioSnapshot
        (checkGpuAlerts page now scenarioSnapshot
          (scenarioState ⟨true, 10, 0⟩)).state).state 0 = false) := by
  have h1 : checkGpuAlerts page now scenarioSnapshot (scenarioState ⟨true, 10, 0⟩)
      = { state := { scenarioState ⟨true, 10, 0⟩ with
                     pendingAlerts := Function.update (fun _ => none) 0 (some now) }
          thrown := false } := by
    norm_num [checkGpuAlerts, forEachGpu, checkGpu, scenarioState, scenarioSnapshot, truthy]
  refine ⟨?_, ?_⟩
  · rw [h1]
    exact ⟨rfl, by simp [firedCount, scenarioState], by simp [monitorOn, scenarioState],
      by simp⟩
  · intro hn hnow hle
    have hq : (0 : ℚ) ≤ ((now2 : ℚ) - (now : ℚ)) / 1000 := by
      have : (now : ℚ) ≤ (now2 : ℚ) := by exact_mod_cast hle
      apply div_nonneg <;> linarith
    have hr : readings scenarioSnapshot 0
        = [{ id := 0, name := "GPU0", gpu_util := 10, mem_percent := 3 }] := by
      simp [readings, scenarioSnapshot]
    have hidle : ∀ g ∈ readings scenarioSnapshot 0, g.mem_percent ≤ (10 : ℚ) := by
      intro g hg
      rw [hr] at hg
      simp at hg
      rw [hg]
      norm_num
    have hrest : Rest 10 0 0 (viewOf (scenarioState ⟨true, 10, 0⟩) 0) :=
      ⟨rfl, rfl, rfl⟩
    have hhot := deviceTick_arm 10 0 0 now hnow (readings scenarioSnapshot 0) _ hrest
      (by rw [hr]; simp) hidle
    have hdone := (deviceTick_hot 10 0 0 now now2 hnow (readings scenarioSnapshot 0) _ hhot
      hidle).2 (by rw [hr]; simp) hq
    rw [← viewOf_checkGpuAlerts page hn now 0 scenarioSnapshot,
      ← viewOf_checkGpuAlerts page hn now2 0 scenarioSnapshot] at hdone
    exact hdone.facts

/-- The amended C3 at a clock of 1700000000000 ms, the second call one second
later, with a working `Notification`. -/
theorem zero_duration_witness :
    firedCount (checkGpuAlerts workingPage 1700000001000 scenarioSnapshot
        (checkGpuAlerts workingPage 1700000000000 scenarioSnapshot
          (scenarioState ⟨true, 10, 0⟩)).state).state 0 = 1 :=
  ((zero_duration_fires_on_second_call workingPage 1700000000000
    1700000001000).2 rfl (by decide) (by decide)).1

/-! ### Reset by a busy reading (C4) -/

/-- From a state where the monitor is on and nothing is pending, no episode is
fired at a tick that comes less than `D` seconds after `t0`, when no tick is
before `t0` and the "Trigger Alert" block does not throw. -/
theorem no_early_fire (page : Page) (hn : page.throws = false) (T D : ℚ)
    (d t0 : Nat) (st : AlertState) (ticks : List (Nat × Snapshot))
    (hrest : Rest T D (firedCount st d) (viewOf st d))
    (htimes : ∀ tk ∈ ticks, t0 ≤ tk.1) :
    ∀ pre tk post, ticks = pre ++ tk :: post → ((tk.1 : ℚ) - t0) / 1000 < D →
      firedCount (runAlerts page st (pre ++ [tk])) d
        = firedCount (runAlerts page st pre) d := by
  intro pre tk post hsplit hlt
  have hinv : Live T D (firedCount st d) t0 (deviceRun d (viewOf st d) pre) ∨
      Done T D (firedCount st d) (deviceRun d (viewOf st d) pre) := by
    apply deviceRun_safe T D _ t0 d pre _ (Or.inl (hrest.live t0))
    intro x hx
    exact htimes x (by rw [hsplit]; exact List.mem_append_left _ hx)
  have htk : t0 ≤ tk.1 := htimes tk (by rw [hsplit]; simp)
  have h := (deviceTick_safe T D _ t0 tk.1 (readings tk.2 d) _ hinv htk).2
  rw [fired_runAlerts page hn, fired_runAlerts page hn, deviceRun_snoc]
  by_contra hne
  exact absurd (h hne) (not_le.2 hlt)

/-- What C4 says holds where the "Trigger Alert" block does not throw. The monitor of a
device is on with threshold `T` and duration `D`, and the device has a pending
alert stamped `s`. One call of `checkGpuAlerts` on a snapshot where the device
is above `T` removes the pending alert, fires nothing and leaves the
configuration as it is. After further ticks `mid` in which the device is above
`T` or absent, let the device be idle at every tick of `(s2, snap) :: rest`, the
clock never going back: the tick at `s2` writes the stamp `s2` (when the
snapshot has one reading of the device), and the count of episodes does not
change at a tick `tk` with `(tk - s2) / 1000 < D`. -/
theorem busy_reading_resets_when_notification_works (page : Page) (T D : ℚ)
    (d : Nat) (st : AlertState) (s t1 : Nat) (above : Snapshot) (mid : List (Nat × Snapshot))
    (hn : page.throws = false)
    (hcfg : st.gpuMonitors d = some ⟨true, T, D⟩)
    (hstamp : st.pendingAlerts d = some s) (hpend : hasPending st d = true)
    (habove : BusyIn d T above)
    (hmid : ∀ tk ∈ mid, ∀ g ∈ readings tk.2 d, T < g.mem_percent) :
    ((checkGpuAlerts page t1 above st).state.pendingAlerts d = none ∧
      hasPending (checkGpuAlerts page t1 above st).state d = false ∧
      firedCount (checkGpuAlerts page t1 above st).state d = firedCount st d ∧
      (checkGpuAlerts page t1 above st).state.gpuMonitors d = some ⟨true, T, D⟩) ∧
    ∀ (s2 : Nat) (snap : Snapshot) (rest : List (Nat × Snapshot)),
      (∀ tk ∈ (s2, snap) :: rest, IdleIn d T tk.2) →
      List.Sorted (fun a b => a ≤ b) (s2 :: rest.map Prod.fst) →
      ((readings snap d).length = 1 →
        (runAlerts page st (((t1, above) :: mid) ++ [(s2, snap)])).pendingAlerts d
          = some s2) ∧
      ∀ pre tk post, (s2, snap) :: rest = pre ++ tk :: post → ((tk.1 : ℚ) - s2) / 1000 < D →
        firedCount (runAlerts page st (((t1, above) :: mid) ++ (pre ++ [tk]))) d
          = firedCount (runAlerts page st (((t1, above) :: mid) ++ pre)) d := by
  have hbusy : ∀ m : ℚ, T < m → ∀ w : DeviceView, w.config = (viewOf st d).config →
      ∀ now : Nat, deviceStep now m w = clearPending w := by
    intro m hm w hw now
    exact deviceStep_busy T D now m w (by rw [hw]; exact hcfg) hm
  have hne0 : (viewOf st d).pending ≠ some 0 := by
    intro h0
    have hs : st.pendingAlerts d = some 0 := h0
    rw [hstamp] at hs
    simp [hasPending, hstamp, truthy] at hpend
    exact hpend (Option.some.inj hs)
  have hfirst : viewOf (checkGpuAlerts page t1 above st).state d
      = clearPending (viewOf st d) := by
    rw [viewOf_checkGpuAlerts page hn]
    exact (deviceTick_clear t1 (readings above d) (viewOf st d)
      (fun g hg w hw => hbusy _ (habove.2 g hg) w hw t1)).2.1 habove.1
  have hrun : viewOf (runAlerts page st ((t1, above) :: mid)) d
      = clearPending (viewOf st d) := by
    rw [viewOf_runAlerts page hn]
    have h1 : deviceRun d (viewOf st d) ((t1, above) :: mid)
        = deviceRun d (deviceTick t1 (readings above d) (viewOf st d)) mid := rfl
    rw [h1, ← viewOf_checkGpuAlerts page hn, hfirst]
    exact (deviceRun_clear d mid (viewOf st d)
      (fun tk htk g hg w hw => hbusy _ (hmid tk htk g hg) w hw tk.1)).2
  have hrest : Rest T D (firedCount (runAlerts page st ((t1, above) :: mid)) d)
      (viewOf (runAlerts page st ((t1, above) :: mid)) d) := by
    refine ⟨?_, ?_, rfl⟩
    · rw [hrun, clearPending_config]; exact hcfg
    · rw [hrun]; exact clearPending_truthy _
  have hp1 : (checkGpuAlerts page t1 above st).state.pendingAlerts d = none := by
    have := congrArg DeviceView.pending hfirst
    rw [clearPending_pending _ hne0] at this
    exact this
  refine ⟨⟨hp1, ?_, ?_, ?_⟩, ?_⟩
  · simp [hasPending, hp1, truthy]
  · have := congrArg DeviceView.fired hfirst
    rw [clearPending_fired] at this
    exact this
  · have := congrArg DeviceView.config hfirst
    rw [clearPending_config] at this
    exact this.trans hcfg
  · intro s2 snap rest hidle hsorted
    have htimes : ∀ tk ∈ (s2, snap) :: rest, s2 ≤ tk.1 := by
      intro tk htk
      rcases List.mem_cons.1 htk with h | h
      · rw [h]
      · exact (List.sorted_cons.1 hsorted).1 tk.1 (List.mem_map_of_mem Prod.fst h)
    constructor
    · intro hone
      obtain ⟨g, hg⟩ := List.length_eq_one.1 hone
      have hgm : g.mem_percent ≤ T :=
        (hidle _ (List.mem_cons_self _ _)).2 g (by rw [hg]; simp)
      have hv : viewOf (runAlerts page st (((t1, above) :: mid) ++ [(s2, snap)])) d
          = { viewOf (runAlerts page st ((t1, above) :: mid)) d with pending := some s2 } := by
        rw [viewOf_runAlerts page hn, deviceRun_snoc, ← viewOf_runAlerts page hn]
        simp only [hg, deviceTick, List.foldl_cons, List.foldl_nil]
        exact deviceStep_arm T D _ s2 g.mem_percent _ hrest hgm
      exact congrArg DeviceView.pending hv
    · intro pre tk post hsplit hlt
      rw [runAlerts_append page st ((t1, above) :: mid) (pre ++ [tk]),
        runAlerts_append page st ((t1, above) :: mid) pre]
      exact no_early_fire page hn T D d s2 _ ((s2, snap) :: rest) hrest htimes pre tk post
        hsplit hlt

/-- C4 evaluated on the code, in a page where `Notification` is not defined.
Devices 0 and 1 are monitored (threshold 10, durations 0 and 60) and both have
a pending alert stamped 1000. In the call at 2000 ms device 0 is idle and
device 1 reports `mem_percent` 50, above its threshold: the alert of device 0
beeps and throws at line 110, the `forEach` ends there, and the pending alert
of device 1 is still there, stamped 1000. -/
theorem busy_reading_not_reached_after_throw :
    ((twoDeviceState ⟨true, 10, 0⟩ (some ⟨true, 10, 60⟩)).gpuMonitors 1 = some ⟨true, 10, 60⟩ ∧
      hasPending (twoDeviceState ⟨true, 10, 0⟩ (some ⟨true, 10, 60⟩)) 1 = true ∧
      BusyIn 1 10 (twoDeviceSnapshot 3 50)) ∧
    (checkGpuAlerts pageWithoutNotification 2000 (twoDeviceSnapshot 3 50)
      (twoDeviceState ⟨true, 10, 0⟩ (some ⟨true, 10, 60⟩))).thrown = true ∧
    (checkGpuAlerts pageWithoutNotification 2000 (twoDeviceSnapshot 3 50)
      (twoDeviceState ⟨true, 10, 0⟩ (some ⟨true, 10, 60⟩))).state.pendingAlerts 1
        = some 1000 ∧
    hasPending (checkGpuAlerts pageWithoutNotification 2000 (twoDeviceSnapshot 3 50)
      (twoDeviceState ⟨true, 10, 0⟩ (some ⟨true, 10, 60⟩))).state 1 = true := by
  refine ⟨⟨by simp [twoDeviceState], by simp [hasPending, twoDeviceState, truthy], ?_⟩,
    ?_, ?_, ?_⟩
  · refine ⟨by simp [readings, twoDeviceSnapshot], ?_⟩
    intro g hg
    simp [readings, twoDeviceSnapshot] at hg
    rw [hg]
    norm_num
  all_goals
    norm_num [hasPending, checkGpuAlerts, forEachGpu, checkGpu, twoDeviceState,
      twoDeviceSnapshot, truthy, NotificationApi.throws, Page.throws, pageWithoutNotification]

/-! ### Unmonitored devices (C5) -/

/-- What C5 says holds where the "Trigger Alert" block does not throw. When `gpuMonitors` has
no entry for device `d`, or a disabled one, then after one call of
`checkGpuAlerts` on a snapshot with a reading of `d`, and after every non-empty
sequence of such calls, `d` has no pending alert (the key is absent, unless it
held the falsy stamp 0 before), no episode was fired for `d`, and the monitor
of `d` is still off. -/
theorem unmonitored_cleared_when_notification_works (page : Page) (d : Nat)
    (st : AlertState) (hn : page.throws = false) (hoff : monitorOn st d = false) :
    (∀ (now : Nat) (data : Snapshot), readings data d ≠ [] →
      hasPending (checkGpuAlerts page now data st).state d = false ∧
      firedCount (checkGpuAlerts page now data st).state d = firedCount st d ∧
      monitorOn (checkGpuAlerts page now data st).state d = false) ∧
    (∀ ticks : List (Nat × Snapshot), ticks ≠ [] → (∀ tk ∈ ticks, readings tk.2 d ≠ []) →
      hasPending (runAlerts page st ticks) d = false ∧
      firedCount (runAlerts page st ticks) d = firedCount st d ∧
      monitorOn (runAlerts page st ticks) d = false ∧
      (st.pendingAlerts d ≠ some 0 → (runAlerts page st ticks).pendingAlerts d = none)) := by
  have hun : Unmonitored (viewOf st d) := (monitorOn_false_iff st d).1 hoff
  have hseq : ∀ ticks : List (Nat × Snapshot), ticks ≠ [] →
      (∀ tk ∈ ticks, readings tk.2 d ≠ []) →
      viewOf (runAlerts page st ticks) d = clearPending (viewOf st d) := by
    intro ticks hne hpres
    rw [viewOf_runAlerts page hn]
    refine (deviceRun_clear d ticks (viewOf st d) ?_).1 hne hpres
    intro tk _ g _ w hw
    apply deviceStep_unmonitored
    unfold Unmonitored at hun ⊢
    rw [hw]
    exact hun
  have hfacts : ∀ ticks : List (Nat × Snapshot), ticks ≠ [] →
      (∀ tk ∈ ticks, readings tk.2 d ≠ []) →
      hasPending (runAlerts page st ticks) d = false ∧
      firedCount (runAlerts page st ticks) d = firedCount st d ∧
      monitorOn (runAlerts page st ticks) d = false ∧
      (st.pendingAlerts d ≠ some 0 → (runAlerts page st ticks).pendingAlerts d = none) := by
    intro ticks hne hpres
    have hv := hseq ticks hne hpres
    refine ⟨?_, ?_, ?_, ?_⟩
    · have := clearPending_truthy (viewOf st d)
      rw [← hv] at this
      exact this
    · have := congrArg DeviceView.fired hv
      rw [clearPending_fired] at this
      exact this
    · rw [monitorOn_false_iff, hv]
      unfold Unmonitored at hun ⊢
      rw [clearPending_config]
      exact hun
    · intro h0
      have := congrArg DeviceView.pending hv
      rw [clearPending_pending _ h0] at this
      exact this
  refine ⟨fun now data hpres => ?_, hfacts⟩
  have h := hfacts [(now, data)] (by simp) (by simpa using hpres)
  exact ⟨h.1, h.2.1, h.2.2.1⟩

/-- C5 evaluated on the code, in a page where `Notification` is not defined.
Device 0 is monitored (threshold 10, duration 0), device 1 has no entry in
`gpuMonitors`, and both hold a stamp of 1000. The snapshot of the call at
2000 ms has a reading of device 1 after the one of device 0: the alert of
device 0 beeps and throws at line 110, the `forEach` ends there, and device 1
still has its pending alert. -/
theorem unmonitored_not_reached_after_throw :
    monitorOn (twoDeviceState ⟨true, 10, 0⟩ none) 1 = false ∧
    readings (twoDeviceSnapshot 3 3) 1 ≠ [] ∧
    (checkGpuAlerts pageWithoutNotification 2000 (twoDeviceSnapshot 3 3)
      (twoDeviceState ⟨true, 10, 0⟩ none)).thrown = true ∧
    hasPending (checkGpuAlerts pageWithoutNotification 2000 (twoDeviceSnapshot 3 3)
      (twoDeviceState ⟨true, 10, 0⟩ none)).state 1 = true := by
  refine ⟨?_, ?_, ?_, ?_⟩
  · simp [monitorOn, twoDeviceState]
  · simp [readings, twoDeviceSnapshot]
  · norm_num [checkGpuAlerts, forEachGpu, checkGpu, twoDeviceState, twoDeviceSnapshot,
      truthy, NotificationApi.throws, Page.throws, pageWithoutNotification]
  · norm_num [hasPending, checkGpuAlerts, forEachGpu, checkGpu, twoDeviceState,
      twoDeviceSnapshot, truthy, NotificationApi.throws, Page.throws, pageWithoutNotification]

/-! ### Chart buffers (C2, C6, C7, C8) -/

theorem runCharts_snoc (dom : Dom) (c : ChartState) (ticks : List (WallClock × Snapshot))
    (tk : WallClock × Snapshot) :
    runCharts dom c (ticks ++ [tk])
      = flushNextTick dom (updateCharts tk.1 tk.2 (runCharts dom c ticks)) := by
  simp [runCharts, List.foldl_append]

theorem lastN_length {α : Type} (k : Nat) (xs : List α) :
    (lastN k xs).length = min k xs.length := by
  simp only [lastN, List.length_drop]
  omega

/-- Shifting when the window is longer than `k` and then pushing keeps the
last `k + 1` elements of the history. -/
theorem lastN_push {α : Type} (k len : Nat) (hist : List α) (x : α)
    (hlen : len = min (k + 1) hist.length) :
    (if len > k then shift (lastN (k + 1) hist) else lastN (k + 1) hist) ++ [x]
      = lastN (k + 1) (hist ++ [x]) := by
  by_cases h : hist.length ≤ k
  · have h1 : ¬ len > k := by omega
    have h2 : hist.length - (k + 1) = 0 := by omega
    have h3 : (hist ++ [x]).length - (k + 1) = 0 := by
      simp only [List.length_append, List.length_singleton]; omega
    rw [if_neg h1]
    simp only [lastN, h2, h3, List.drop_zero]
  · have h1 : len > k := by omega
    have h3 : (hist ++ [x]).length - (k + 1) = hist.length - (k + 1) + 1 := by
      simp only [List.length_append, List.length_singleton]; omega
    rw [if_pos h1]
    simp only [lastN, shift, h3, List.tail_drop]
    rw [List.drop_append_of_le_length (by omega)]

/-- The five shared series after one tick. -/
theorem shared_after_tick (dom : Dom) (now : WallClock) (data : Snapshot) (c : ChartState) :
    let r := flushNextTick dom (updateCharts now data c)
    r.timeLabels = (if c.timeLabels.length > maxDataPoints then shift c.timeLabels
        else c.timeLabels) ++ [timeStr now] ∧
    r.cpuData = (if c.timeLabels.length > maxDataPoints then shift c.cpuData
        else c.cpuData) ++ [data.system.cpu] ∧
    r.memData = (if c.timeLabels.length > maxDataPoints then shift c.memData
        else c.memData) ++ [data.system.memory.percent] ∧
    r.netSentData = (if c.timeLabels.length > maxDataPoints then shift c.netSentData
        else c.netSentData) ++ [orZero data.system.network.speed_sent_bytes] ∧
    r.netRecvData = (if c.timeLabels.length > maxDataPoints then shift c.netRecvData
        else c.netRecvData) ++ [orZero data.system.network.speed_recv_bytes] := by
  simp only [flushNextTick, initGpuChart, updateCharts]
  cases data.gpus with
  | none => simp only []; split_ifs <;> simp
  | some gpus => simp only []; split_ifs <;> simp

/-- After any sequence of `updateCharts` calls on the empty buffers every shared
series holds the last `maxDataPoints + 1` samples pushed to it, in order. -/
theorem shared_series_window (dom : Dom) (ticks : List (WallClock × Snapshot)) :
    (runCharts dom initialCharts ticks).timeLabels
      = lastN (maxDataPoints + 1) (ticks.map (fun tk => timeStr tk.1)) ∧
    (runCharts dom initialCharts ticks).cpuData
      = lastN (maxDataPoints + 1) (ticks.map (fun tk => tk.2.system.cpu)) ∧
    (runCharts dom initialCharts ticks).memData
      = lastN (maxDataPoints + 1) (ticks.map (fun tk => tk.2.system.memory.percent)) ∧
    (runCharts dom initialCharts ticks).netSentData
      = lastN (maxDataPoints + 1)
          (ticks.map (fun tk => orZero tk.2.system.network.speed_sent_bytes)) ∧
    (runCharts dom initialCharts ticks).netRecvData
      = lastN (maxDataPoints + 1)
          (ticks.map (fun tk => orZero tk.2.system.network.speed_recv_bytes)) := by
  induction ticks using List.reverseRecOn with
  | nil => exact ⟨rfl, rfl, rfl, rfl, rfl⟩
  | append_singleton ticks tk ih =>
    obtain ⟨h1, h2, h3, h4, h5⟩ := ih
    obtain ⟨s1, s2, s3, s4, s5⟩ :=
      shared_after_tick dom tk.1 tk.2 (runCharts dom initialCharts ticks)
    have hlen : (runCharts dom initialCharts ticks).timeLabels.length
        = min (maxDataPoints + 1) ticks.length := by
      rw [h1, lastN_length, List.length_map]
    rw [runCharts_snoc]
    simp only [List.map_append, List.map_cons, List.map_nil]
    refine ⟨?_, ?_, ?_, ?_, ?_⟩
    · rw [s1, h1]; exact lastN_push _ _ _ _ (by rw [← h1, hlen, List.length_map])
    · rw [s2, h2]; exact lastN_push _ _ _ _ (by rw [hlen, List.length_map])
    · rw [s3, h3]; exact lastN_push _ _ _ _ (by rw [hlen, List.length_map])
    · rw [s4, h4]; exact lastN_push _ _ _ _ (by rw [hlen, List.length_map])
    · rw [s5, h5]; exact lastN_push _ _ _ _ (by rw [hlen, List.length_map])

/-- C6. After any sequence of `updateCharts` calls on the empty buffers,
`timeLabels`, `cpuData`, `memData`, `netSentData` and `netRecvData` have the
same length. -/
theorem shared_series_aligned (dom : Dom) (ticks : List (WallClock × Snapshot)) :
    (runCharts dom initialCharts ticks).cpuData.length
      = (runCharts dom initialCharts ticks).timeLabels.length ∧
    (runCharts dom initialCharts ticks).memData.length
      = (runCharts dom initialCharts ticks).timeLabels.length ∧
    (runCharts dom initialCharts ticks).netSentData.length
      = (runCharts dom initialCharts ticks).timeLabels.length ∧
    (runCharts dom initialCharts ticks).netRecvData.length
      = (runCharts dom initialCharts ticks).timeLabels.length := by
  obtain ⟨h1, h2, h3, h4, h5⟩ := shared_series_window dom ticks
  rw [h1, h2, h3, h4, h5]
  simp only [lastN_length, List.length_map, and_self]

/-- When more than `maxDataPoints` snapshots were applied to the empty buffers,
every shared series has `maxDataPoints + 1` elements. -/
theorem shared_series_length (dom : Dom) (ticks : List (WallClock × Snapshot))
    (h : maxDataPoints < ticks.length) :
    (runCharts dom initialCharts ticks).timeLabels.length = maxDataPoints + 1 ∧
    (runCharts dom initialCharts ticks).cpuData.length = maxDataPoints + 1 ∧
    (runCharts dom initialCharts ticks).memData.length = maxDataPoints + 1 ∧
    (runCharts dom initialCharts ticks).netSentData.length = maxDataPoints + 1 ∧
    (runCharts dom initialCharts ticks).netRecvData.length = maxDataPoints + 1 := by
  obtain ⟨h1, h2, h3, h4, h5⟩ := shared_series_window dom ticks
  rw [h1, h2, h3, h4, h5]
  simp only [lastN_length, List.length_map]
  omega

/-- C2 evaluated on the code: after 61 snapshots on the empty buffers every
shared series has 61 elements, one more than `maxDataPoints`; the oldest sample
is still there. -/
theorem shared_series_hold_61 :
    (runCharts ⟨true, true, true⟩ initialCharts
      (List.replicate 61 (⟨12, 0, 0⟩, scenarioSnapshot))).timeLabels.length = 61 ∧
    (runCharts ⟨true, true, true⟩ initialCharts
      (List.replicate 61 (⟨12, 0, 0⟩, scenarioSnapshot))).cpuData.length = 61 ∧
    (runCharts ⟨true, true, true⟩ initialCharts
      (List.replicate 61 (⟨12, 0, 0⟩, scenarioSnapshot))).memData.length = 61 ∧
    (runCharts ⟨true, true, true⟩ initialCharts
      (List.replicate 61 (⟨12, 0, 0⟩, scenarioSnapshot))).netSentData.length = 61 ∧
    (runCharts ⟨true, true, true⟩ initialCharts
      (List.replicate 61 (⟨12, 0, 0⟩, scenarioSnapshot))).netRecvData.length = 61 :=
  shared_series_length ⟨true, true, true⟩ (List.replicate 61 (⟨12, 0, 0⟩, scenarioSnapshot))
    (by simp [maxDataPoints])


theorem foldl_recordGpu_apply (d : Nat) (gs : List Gpu) :
    ∀ m : Nat → Option (List ℚ),
      (gs.foldl recordGpu m) d = (gs.filter (fun g => g.id == d)).foldl recordStep (m d) := by
  induction gs with
  | nil => intro m; rfl
  | cons g gs ih =>
    intro m
    rw [List.foldl_cons, ih]
    by_cases hg : g.id = d
    · subst hg
      simp [List.filter_cons, recordGpu, recordStep]
    · have hg2 : (g.id == d) = false := by simpa using hg
      have hd : d ≠ g.id := fun h => hg h.symm
      rw [List.filter_cons, hg2]
      simp [recordGpu, Function.update_noteq hd]

theorem evict_length_le (xs : List ℚ) (h : xs.length ≤ maxDataPoints + 1) :
    (evict xs).length ≤ maxDataPoints := by
  unfold evict shift
  split_ifs with hlt
  · simp only [List.length_tail]; omega
  · omega

theorem recordGpu_bounded (m : Nat → Option (List ℚ)) (g : Gpu) (h : SeriesBounded m) :
    SeriesBounded (recordGpu m g) := by
  intro id xs hxs
  unfold recordGpu at hxs
  by_cases hid : id = g.id
  · rw [hid, Function.update_same] at hxs
    have hx := Option.some.inj hxs
    rw [← hx]
    have hold : ((m g.id).getD []).length ≤ maxDataPoints + 1 := by
      cases hm : m g.id with
      | none => simp
      | some ys => simpa using h g.id ys hm
    have := evict_length_le _ hold
    simp only [List.length_append, List.length_singleton]
    omega
  · rw [Function.update_noteq hid] at hxs
    exact h id xs hxs

theorem foldl_recordGpu_bounded (gs : List Gpu) :
    ∀ m : Nat → Option (List ℚ), SeriesBounded m → SeriesBounded (gs.foldl recordGpu m) := by
  induction gs with
  | nil => intro m h; exact h
  | cons g gs ih => intro m h; exact ih _ (recordGpu_bounded m g h)

/-- The device series after one call of `updateCharts`, chart ready or not. -/
theorem updateCharts_gpuData (now : WallClock) (data : Snapshot) (c : ChartState) :
    (updateCharts now data c).gpuData
      = if c.gpuChart then (data.gpus.getD []).foldl recordGpu c.gpuData else c.gpuData := by
  unfold updateCharts
  cases hg : data.gpus with
  | none =>
    by_cases h : c.timeLabels.length > maxDataPoints <;> cases hc : c.gpuChart <;> simp [h, hc]
  | some gpus =>
    cases gpus with
    | nil =>
      by_cases h : c.timeLabels.length > maxDataPoints <;> cases hc : c.gpuChart <;>
        simp [h, hc]
    | cons g gs =>
      by_cases h : c.timeLabels.length > maxDataPoints <;> cases hc : c.gpuChart <;>
        simp [h, hc]

theorem flushNextTick_gpuData (dom : Dom) (c : ChartState) :
    (flushNextTick dom c).gpuData = c.gpuData := by
  unfold flushNextTick initGpuChart
  split_ifs <;> rfl

/-- After any sequence of `updateCharts` calls on the empty buffers no device
series is longer than `maxDataPoints + 1`. -/
theorem device_series_bounded (dom : Dom) (ticks : List (WallClock × Snapshot)) :
    SeriesBounded (runCharts dom initialCharts ticks).gpuData := by
  induction ticks using List.reverseRecOn with
  | nil => intro id xs h; simp [runCharts, initialCharts] at h
  | append_singleton ticks tk ih =>
    rw [runCharts_snoc, flushNextTick_gpuData, updateCharts_gpuData]
    split_ifs
    · exact foldl_recordGpu_bounded _ _ ih
    · exact ih

/-- C7 evaluated on the code: with the device chart container in the page, after
62 snapshots that each hold one reading of device 0 the series `gpuData[0]` has
61 elements, one more than `maxDataPoints`. -/
theorem device_series_reaches_61 :
    ((runCharts ⟨true, true, true⟩ initialCharts
      (List.replicate 62 (⟨12, 0, 0⟩, scenarioSnapshot))).gpuData 0).map List.length
      = some 61 := by
  set_option maxRecDepth 1000000 in decide

/-! ### Device readings (C8) -/

/-- The claim C8 fails on the code: while the device chart is not initialised,
`updateCharts` neither creates `gpuData[0]` nor appends the reading of device 0
of the scenario snapshot; it only queues `initGpuChart`. -/
theorem reading_dropped_before_chart_init :
    (updateCharts ⟨12, 0, 0⟩ scenarioSnapshot initialCharts).gpuData 0 = none ∧
    (updateCharts ⟨12, 0, 0⟩ scenarioSnapshot initialCharts).gpuInitQueued = true := by
  constructor
  · rw [updateCharts_gpuData]; rfl
  · simp [updateCharts, scenarioSnapshot, initialCharts]

/-- C8, as the code has it. For every buffer state and every snapshot with a
`gpus` list: when the device chart is initialised, `updateCharts` leaves for each
device of the list a series whose last element is the `gpu_util` of a reading of
that device, and for a device with a single reading `g` the series is the old
one (empty when absent), shifted when it was longer than `maxDataPoints`, with
`g.gpu_util` appended; when the device chart is not initialised `gpuData` is
unchanged, and a non-empty list queues `initGpuChart`. -/
theorem device_reading_recorded_when_chart_ready (now : WallClock) (data : Snapshot)
    (c : ChartState) (gpus : List Gpu) (hg : data.gpus = some gpus) :
    (c.gpuChart = true → ∀ g ∈ gpus,
      (∃ xs g2, (updateCharts now data c).gpuData g.id = some xs ∧ g2 ∈ gpus ∧
        g2.id = g.id ∧ xs.getLast? = some g2.gpu_util) ∧
      (readings data g.id = [g] →
        (updateCharts now data c).gpuData g.id
          = some (evict ((c.gpuData g.id).getD []) ++ [g.gpu_util]))) ∧
    (c.gpuChart = false →
      (updateCharts now data c).gpuData = c.gpuData ∧
      (gpus ≠ [] → (updateCharts now data c).gpuInitQueued = true)) := by
  constructor
  · intro hc g hmem
    have hdata : (updateCharts now data c).gpuData g.id
        = (readings data g.id).foldl recordStep (c.gpuData g.id) := by
      rw [updateCharts_gpuData, hc, if_pos rfl, foldl_recordGpu_apply]
      rfl
    constructor
    · have hin : g ∈ readings data g.id := by
        simp [readings, hg, hmem]
      rcases List.eq_nil_or_concat (readings data g.id) with hnil | ⟨ini, lst, hcat⟩
      · rw [hnil] at hin; simp at hin
      · have hl : lst ∈ readings data g.id := by rw [hcat]; simp
        have hl2 : lst ∈ gpus ∧ lst.id = g.id := by
          simpa [readings, hg] using hl
        refine ⟨evict ((ini.foldl recordStep (c.gpuData g.id)).getD []) ++ [lst.gpu_util], lst,
          ?_, hl2.1, hl2.2, ?_⟩
        · rw [hdata, hcat, List.concat_eq_append, List.foldl_append]
          rfl
        · simp
    · intro hone
      rw [hdata, hone]
      rfl
  · intro hc
    constructor
    · rw [updateCharts_gpuData, hc]; rfl
    · intro hne
      cases gpus with
      | nil => exact absurd rfl hne
      | cons g gs =>
        unfold updateCharts
        by_cases h : c.timeLabels.length > maxDataPoints <;> simp [h, hg, hc]

/-- The amended C8 on the scenario snapshot with the device chart initialised:
the first reading of device 0 creates the series `[10]`. -/
theorem device_reading_witness :
    (updateCharts ⟨12, 0, 0⟩ scenarioSnapshot { initialCharts with gpuChart := true }).gpuData 0
      = some (evict (Option.getD none []) ++ [10]) :=
  ((device_reading_recorded_when_chart_ready ⟨12, 0, 0⟩ scenarioSnapshot
    { initialCharts with gpuChart := true }
    [{ id := 0, name := "GPU0", gpu_util := 10, mem_percent := 3 }] rfl).1 rfl
    { id := 0, name := "GPU0", gpu_util := 10, mem_percent := 3 }
    (List.mem_cons_self _ _)).2 (by simp [readings, scenarioSnapshot])


/-! ### Session (C9, C10) -/

theorem liveSockets_append (xs ys : List ReadyState) :
    liveSockets (xs ++ ys) = liveSockets xs + liveSockets ys := by
  induction xs with
  | nil => simp [liveSockets]
  | cons r rs ih =>
    show (if r = ReadyState.CLOSED then 0 else 1) + liveSockets (rs ++ ys)
      = (if r = ReadyState.CLOSED then 0 else 1) + liveSockets rs + liveSockets ys
    rw [ih]
    omega

theorem liveSockets_set (xs : List ReadyState) :
    ∀ (i : Nat) (r x : ReadyState), xs[i]? = some r →
      liveSockets (xs.set i x) + (if r = ReadyState.CLOSED then 0 else 1)
        = liveSockets xs + (if x = ReadyState.CLOSED then 0 else 1) := by
  induction xs with
  | nil => intro i r x h; simp at h
  | cons y ys ih =>
    intro i r x h
    cases i with
    | zero =>
      simp only [List.getElem?_cons_zero, Option.some.injEq] at h
      subst h
      simp only [List.set_cons_zero, liveSockets]
      omega
    | succ j =>
      simp only [List.getElem?_cons_succ] at h
      have := ih j r x h
      simp only [List.set_cons_succ, liveSockets]
      omega

theorem onmessage_session (env : Env) (clock : Clock) (payload : String) (s : AppState) :
    (onmessage env clock payload s).sockets = s.sockets ∧
    (onmessage env clock payload s).timers = s.timers ∧
    (onmessage env clock payload s).connected = s.connected := by
  unfold onmessage
  cases env.jsonParse payload with
  | none => exact ⟨rfl, rfl, rfl⟩
  | some data => simp only []; split_ifs <;> exact ⟨rfl, rfl, rfl⟩

theorem onerror_session (s : AppState) :
    liveSockets (onerror s).sockets = liveSockets s.sockets ∧ (onerror s).timers = s.timers := by
  unfold onerror
  cases s.ws with
  | none => exact ⟨rfl, rfl⟩
  | some i =>
    simp only []
    cases h : s.sockets[i]? with
    | none => exact ⟨rfl, rfl⟩
    | some r =>
      refine ⟨?_, rfl⟩
      have := liveSockets_set s.sockets i r (closeCall r) h
      cases r <;> simp [closeCall] at this ⊢ <;> omega

/-- In every reachable state one socket is not closed and no timeout is
pending, or every socket is closed and one timeout of 3000 ms is pending. -/
theorem session_invariant (env : Env) (monitors : Nat → Option MonitorConfig) (s : AppState)
    (h : Reachable env monitors s) :
    liveSockets s.sockets + s.timers.length = 1 ∧ ∀ d ∈ s.timers, d = 3000 := by
  induction h with
  | mounted => simp [connect, initialApp, liveSockets]
  | next s e s2 _ hstep ih =>
    obtain ⟨hcount, hdelay⟩ := ih
    cases e with
    | opened i =>
      simp only [step] at hstep
      split_ifs at hstep with hi
      have hs := Option.some.inj hstep
      subst hs
      have := liveSockets_set s.sockets i _ ReadyState.OPEN hi
      simp only [onopen]
      simp at this
      exact ⟨by omega, hdelay⟩
    | message i clock payload =>
      simp only [step] at hstep
      split_ifs at hstep with hi
      have hs := Option.some.inj hstep
      subst hs
      obtain ⟨h1, h2, _⟩ := onmessage_session env clock payload s
      rw [h1, h2]
      exact ⟨hcount, hdelay⟩
    | errored i =>
      simp only [step] at hstep
      cases hi : s.sockets[i]? with
      | none => rw [hi] at hstep; simp at hstep
      | some r =>
        rw [hi] at hstep
        simp only [] at hstep
        split_ifs at hstep with hr
        have hs := Option.some.inj hstep
        subst hs
        obtain ⟨h1, h2⟩ := onerror_session s
        rw [h1, h2]
        exact ⟨hcount, hdelay⟩
    | closed i =>
      simp only [step] at hstep
      cases hi : s.sockets[i]? with
      | none => rw [hi] at hstep; simp at hstep
      | some r =>
        rw [hi] at hstep
        simp only [] at hstep
        split_ifs at hstep with hr
        have hs := Option.some.inj hstep
        subst hs
        have := liveSockets_set s.sockets i r ReadyState.CLOSED hi
        simp only [hr, if_false, if_true] at this
        simp only [onclose, List.length_append, List.length_singleton]
        refine ⟨by omega, ?_⟩
        intro d hd
        rcases List.mem_append.1 hd with h | h
        · exact hdelay d h
        · simpa using h
    | timer =>
      simp only [step] at hstep
      cases ht : s.timers with
      | nil => rw [ht] at hstep; simp at hstep
      | cons d rest =>
        rw [ht] at hstep
        have hs := Option.some.inj hstep
        subst hs
        rw [ht] at hcount hdelay
        simp only [connect, liveSockets_append, liveSockets, List.length_cons] at hcount ⊢
        refine ⟨by simp; omega, ?_⟩
        intro x hx
        exact hdelay x (List.mem_cons_of_mem _ hx)


theorem liveSockets_pos (xs : List ReadyState) (i : Nat) (r : ReadyState)
    (h : xs[i]? = some r) (hr : r ≠ ReadyState.CLOSED) : 1 ≤ liveSockets xs := by
  have := liveSockets_set xs i r ReadyState.CLOSED h
  simp only [hr, if_false, if_true] at this
  omega

/-- C9. In every state the session can reach at most one reconnect timeout is
pending; a `close` event leaves `connected` false and exactly one pending
timeout, of 3000 ms, in a state that is reachable again; and when that timeout
elapses `connect` runs and no timeout is pending. -/
theorem at_most_one_pending_reconnect (env : Env) (monitors : Nat → Option MonitorConfig)
    (s : AppState) (h : Reachable env monitors s) :
    s.timers.length ≤ 1 ∧
    (∀ i s2, step env s (Event.closed i) = some s2 →
      s2.connected = false ∧ s2.timers = [3000] ∧ Reachable env monitors s2) ∧
    (∀ s2, step env s Event.timer = some s2 → s2.timers = [] ∧ Reachable env monitors s2) := by
  obtain ⟨hcount, _⟩ := session_invariant env monitors s h
  refine ⟨by omega, ?_, ?_⟩
  · intro i s2 hstep
    have hreach := Reachable.next s (Event.closed i) s2 h hstep
    simp only [step] at hstep
    cases hi : s.sockets[i]? with
    | none => rw [hi] at hstep; simp at hstep
    | some r =>
      rw [hi] at hstep
      simp only [] at hstep
      split_ifs at hstep with hr
      have hs := Option.some.inj hstep
      have hpos := liveSockets_pos s.sockets i r hi hr
      have hnil : s.timers = [] := List.length_eq_zero.1 (by omega)
      refine ⟨?_, ?_, hreach⟩
      · rw [← hs]; rfl
      · rw [← hs]; simp [onclose, hnil]
  · intro s2 hstep
    have hreach := Reachable.next s Event.timer s2 h hstep
    obtain ⟨hcount2, _⟩ := session_invariant env monitors s2 hreach
    simp only [step] at hstep
    cases ht : s.timers with
    | nil => rw [ht] at hstep; simp at hstep
    | cons d rest =>
      rw [ht] at hstep hcount
      have hs := Option.some.inj hstep
      have hrest : rest = [] := List.length_eq_zero.1 (by simp at hcount; omega)
      refine ⟨?_, hreach⟩
      rw [← hs, hrest]
      rfl

/-- C9 on the session that was just mounted: the `close` event of its socket
leaves one pending timeout of 3000 ms. -/
theorem reconnect_witness :
    (onclose { connect (initialApp (fun _ => none)) with
        sockets := [ReadyState.CLOSED] }).timers = [3000] :=
  ((at_most_one_pending_reconnect scenarioEnv (fun _ => none) _ Reachable.mounted).2.1 0
    (onclose { connect (initialApp (fun _ => none)) with sockets := [ReadyState.CLOSED] })
    rfl).2.1

/-- The handler `onclose` has no guard of its own: run twice, it leaves two more
timeouts. The bound of C9 rests on the browser delivering the `close` event of
a socket once. -/
theorem onclose_twice (s : AppState) :
    (onclose (onclose s)).timers.length = s.timers.length + 2 := by
  simp [onclose]

/-- The claim C10 fails on the code: on the open session a frame that
`JSON.parse` rejects is delivered, and afterwards the socket is still open,
`connected` is still true and no reconnect timeout is pending. -/
theorem malformed_frame_keeps_session_open :
    step scenarioEnv (connect (initialApp (fun _ => none))) (Event.opened 0) = some openSession ∧
    step scenarioEnv openSession (Event.message 0 ⟨1700000000000, ⟨12, 0, 0⟩⟩ "not json")
      = some openSession ∧
    openSession.sockets = [ReadyState.OPEN] ∧ openSession.connected = true ∧
    openSession.timers = [] := by
  refine ⟨rfl, ?_, rfl, rfl, rfl⟩
  simp [step, openSession, onopen, connect, initialApp, onmessage, scenarioEnv]

/-- C10, as the code has it: for every frame that `JSON.parse` rejects the
handler `onmessage` leaves the whole state as it was: `stats`, the chart
buffers, `gpuMonitors` and `pendingAlerts`, and also the socket, `connected`
and the pending timeouts. -/
theorem malformed_frame_changes_nothing (env : Env) (clock : Clock) (payload : String)
    (s : AppState) (h : env.jsonParse payload = none) :
    onmessage env clock payload s = s := by
  unfold onmessage
  rw [h]

/-- The amended C10 on the open session and the frame `"not json"`. -/
theorem malformed_frame_witness :
    onmessage scenarioEnv ⟨1700000000000, ⟨12, 0, 0⟩⟩ "not json" openSession = openSession :=
  malformed_frame_changes_nothing scenarioEnv ⟨1700000000000, ⟨12, 0, 0⟩⟩ "not json" openSession
    (by simp [scenarioEnv])

end ServerBoard
